import Mathlib

/-!
# Verification of the document-agent orchestration core

A shallow embedding, in Lean 4, of the retrieval / research / chat / metadata
orchestration code of the repository (`app/tools/vector_search_tool.py`,
`app/services/embedding_service.py`, `app/agents/deep_research_agent.py`,
`app/agents/chat_agent_with_tools.py`, `app/agents/chat_rag_agent.py`,
`app/services/metadata_extractor.py`), together with theorems that settle the
stated properties of that code.

Modelling conventions:
* Python strings are modelled as `List Char` where slicing and counting
  matter, and as `String` where only equality matters.
* Python floats are modelled as exact rationals (`ℚ`).
* Fallible collaborators (LLM calls, similarity search, database reads) are
  passed in as explicit outcome values (`Except`, `Option`, functions), so a
  step function becomes a pure function of its input state and the outcomes
  of the external calls it performs.
* A Python function whose body is wrapped in `try/except` is modelled as a
  total function whose error branch mirrors the `except` handler.
-/

/-- A retrieved chunk, as produced by
`EmbeddingService.search_similar_chunks` (`app/services/embedding_service.py`):
a dict with keys `chunk_id`, `content`, `similarity_score`, `page_number`,
`chunk_index`.  The `page_number` and `chunk_index` columns are nullable in
the database, hence `Option`. -/
structure Chunk where
  chunk_id : String
  content : List Char
  similarity_score : ℚ
  page_number : Option Int
  chunk_index : Option Int
deriving DecidableEq, Repr

/-- `Nat` rendered in decimal, used by the formatting helpers. -/
def natChars (n : Nat) : List Char :=
  Nat.toDigits 10 n

/-- `Int` rendered as Python would print it. -/
def intChars (i : Int) : List Char :=
  if i < 0 then '-' :: natChars i.natAbs else natChars i.natAbs

/-- Rendering of a nullable page number inside a format string.
`search_similar_chunks` always puts the `page_number` key in the chunk dict
(so the `"Unknown"` default of `chunk.get("page_number", "Unknown")` never
fires); a SQL `NULL` page prints as Python `None`. -/
def pageChars : Option Int → List Char
  | none => "None".data
  | some p => intChars p

/-- Rendering of a nullable chunk index (same convention as `pageChars`). -/
def chunkIndexChars : Option Int → List Char
  | none => "None".data
  | some i => intChars i

/-- Two-decimal rendering of a similarity score, modelling the Python format
`f"{similarity:.2f}"` (float rounding is modelled by rational rounding). -/
def twoDecimalChars (q : ℚ) : List Char :=
  let s : Int := round (q * 100)
  let pad : Nat → List Char := fun n =>
    if n < 10 then '0' :: natChars n else natChars n
  (if s < 0 then ['-'] else []) ++ natChars (s.natAbs / 100) ++ '.' :: pad (s.natAbs % 100)

/-- A JSON-like value: the payloads stored in the agents' state dicts
(`content_outline`, `detailed_sections`) and the metadata-extraction
results.  Python floats are modelled as exact rationals. -/
inductive JVal where
  | null
  | bool (b : Bool)
  | num (q : ℚ)
  | str (s : String)
  | arr (xs : List JVal)
  | obj (fields : List (String × JVal))
deriving Repr

/-- Python dict lookup `d.get(k)` on an insertion-ordered dict modelled as an
association list. -/
def jLookup (d : List (String × JVal)) (k : String) : Option JVal :=
  (d.find? (fun p => p.1 = k)).map (·.2)

/-- Python dict assignment `d[k] = v`: replace in place if the key exists
(first occurrence keeps its position), append otherwise. -/
def dictSet (d : List (String × JVal)) (k : String) (v : JVal) :
    List (String × JVal) :=
  if (d.find? (fun p => p.1 = k)).isSome then
    d.map (fun p => if p.1 = k then (k, v) else p)
  else d ++ [(k, v)]

/-- Python `d.update(kvs)`: assign each pair in order. -/
def dictUpdate (d : List (String × JVal)) (kvs : List (String × JVal)) :
    List (String × JVal) :=
  kvs.foldl (fun acc p => dictSet acc p.1 p.2) d

/-- Python truthiness of a JSON value (`if value:`). -/
def pyTruthy : JVal → Bool
  | .null => false
  | .bool b => b
  | .num q => q ≠ 0
  | .str s => s ≠ ""
  | .arr xs => ¬xs.isEmpty
  | .obj fs => ¬fs.isEmpty

/-- The characters stripped by Python's default `str.strip()` /
matched by the regex class `\s` (ASCII). -/
def pyWhitespace : List Char := [' ', '\t', '\n', '\r', '\x0B', '\x0C']

/-- Membership in `pyWhitespace`. -/
def isPyWs (c : Char) : Bool := c ∈ pyWhitespace

/-- Python `str.strip(chars)`: drop characters of `cs` from both ends. -/
def stripChars (cs : List Char) (l : List Char) : List Char :=
  ((l.dropWhile (· ∈ cs)).reverse.dropWhile (· ∈ cs)).reverse

/-- Python `str.strip()` on a `String`. -/
def pyStrip (s : String) : String :=
  String.mk (stripChars pyWhitespace s.data)

/-- Python `str.upper()` (ASCII). -/
def pyUpper (s : String) : String :=
  String.mk (s.data.map Char.toUpper)

/-- Number of words of a Python string (`len(text.split())`): maximal
whitespace-separated runs. -/
def pyWordCountAux : Bool → List Char → Nat
  | _, [] => 0
  | prevWs, c :: rest =>
      if isPyWs c then pyWordCountAux true rest
      else (if prevWs then 1 else 0) + pyWordCountAux false rest

/-- `len(text.split())`. -/
def pyWordCount (l : List Char) : Nat := pyWordCountAux true l

namespace VectorSearchTool

/-- Constructor arguments of `VectorSearchTool`
(`app/tools/vector_search_tool.py`): per-source token cap and the fixed
chars-per-token ratio (defaults 1000 and 4). -/
structure Config where
  max_tokens_per_source : Nat := 1000
  chars_per_token : Nat := 4
deriving Repr

/-- The first 100 characters of a chunk's content (`content[:100]`), the key
used for deduplication. -/
def contentPreview (c : Chunk) : List Char :=
  c.content.take 100

/-- Truncation step of `_deduplicate_and_format_sources`: content longer than
`max_chars` is cut and suffixed with an ellipsis marker. -/
def truncateContent (content : List Char) (maxChars : Nat) : List Char :=
  if content.length > maxChars then content.take maxChars ++ "...".data else content

/-- Formatting of one retained chunk in `_deduplicate_and_format_sources`:
`f"[Page {page_num} | Similarity: {similarity:.2f}]\n{content}\n"`. -/
def formatChunk (cfg : Config) (maxTokensPerSource : Nat) (c : Chunk) : List Char :=
  "[Page ".data ++ pageChars c.page_number ++ " | Similarity: ".data
    ++ twoDecimalChars c.similarity_score ++ "]\n".data
    ++ truncateContent c.content (maxTokensPerSource * cfg.chars_per_token) ++ "\n".data

/-- The deduplication loop of `_deduplicate_and_format_sources`, factored out:
walk the chunks keeping the first chunk of each 100-character content prefix
(`seen_content` is the set of previews already emitted). -/
def dedupChunks (seen : List (List Char)) : List Chunk → List Chunk
  | [] => []
  | c :: rest =>
    if contentPreview c ∈ seen then dedupChunks seen rest
    else c :: dedupChunks (contentPreview c :: seen) rest

/-- `VectorSearchTool._deduplicate_and_format_sources`: deduplicate by
100-character content prefix, truncate, format each retained chunk and join
with the fixed `"\n---\n"` separator. -/
def deduplicateAndFormatSources (cfg : Config) (chunks : List Chunk)
    (maxTokensPerSource : Nat) : List Char :=
  List.intercalate "\n---\n".data
    ((dedupChunks [] chunks).map (formatChunk cfg maxTokensPerSource))

/-- `VectorSearchTool._format_sources`: one `- Page N, Chunk I` line per
chunk, order preserved, joined by newlines. -/
def formatSources (chunks : List Chunk) : List Char :=
  List.intercalate "\n".data
    (chunks.map fun c =>
      "- Page ".data ++ pageChars c.page_number ++ ", Chunk ".data
        ++ chunkIndexChars c.chunk_index)

/-- Return shape of `VectorSearchTool.search`: the raw chunks, the two
formatted strings, and the `error` key (present only on failure). -/
structure SearchResult where
  similar_chunks : List Chunk
  formatted_results : List Char
  formatted_sources : List Char
  error : Option String
deriving DecidableEq, Repr

/-- `VectorSearchTool.search`.  The underlying
`embedding_service.search_similar_chunks` call is passed in as its outcome
`collab` (`.error e` models the call raising `e`).  The whole body is wrapped
in `try/except`, whose handler returns the empty structure plus an `error`
field. -/
def search (cfg : Config) (collab : Except String (List Chunk))
    (max_tokens_per_source : Option Nat) : SearchResult :=
  match collab with
  | .error exc =>
      { similar_chunks := []
        formatted_results := []
        formatted_sources := []
        error := some exc }
  | .ok similar_chunks =>
      -- `token_cap = max_tokens_per_source or self.max_tokens_per_source`:
      -- Python `or` falls back on `None` and on the falsy value `0`.
      let token_cap :=
        match max_tokens_per_source with
        | some n => if n = 0 then cfg.max_tokens_per_source else n
        | none => cfg.max_tokens_per_source
      { similar_chunks := similar_chunks
        formatted_results := deduplicateAndFormatSources cfg similar_chunks token_cap
        formatted_sources := formatSources similar_chunks
        error := none }

end VectorSearchTool

namespace EmbeddingService

/-- One scored result of the underlying vector store
(`similarity_search_with_relevance_scores` / `..._with_score`): a document
with its `chunk_id` metadata entry, plus a score. -/
structure SearchDoc where
  page_content : List Char
  chunk_id : String
deriving DecidableEq, Repr

/-- The nullable columns read back from the `DocumentChunk` row. -/
structure DbChunkRow where
  page_number : Option Int
  chunk_index : Option Int
deriving DecidableEq, Repr

/-- Outcomes of the external calls made by one invocation of
`search_similar_chunks` (`app/services/embedding_service.py`): whether the
vector store exposes relevance scores, the scored results returned for a
given `k` (query and namespace are fixed for the call), and the database
lookup of a chunk id. -/
structure SearchCollab where
  use_relevance_scores : Bool
  vectorSearch : Nat → List (SearchDoc × ℚ)
  dbChunk : String → Option DbChunkRow

/-- The result-processing loop of `search_similar_chunks`: drop scores below
the threshold (only when relevance scores are in use), drop hits whose chunk
row is no longer in the database, and build the chunk dicts. -/
def processRound (o : SearchCollab) (top_k : Nat) (similarity_threshold : ℚ) :
    List Chunk :=
  (o.vectorSearch top_k).filterMap fun ds =>
    if o.use_relevance_scores ∧ ds.2 < similarity_threshold then none
    else
      match o.dbChunk ds.1.chunk_id with
      | some row =>
          some { chunk_id := ds.1.chunk_id
                 content := ds.1.page_content
                 similarity_score := ds.2
                 page_number := row.page_number
                 chunk_index := row.chunk_index }
      | none => none

/-- `EmbeddingService.search_similar_chunks`, instrumented with the number of
vector-store query rounds performed.  If a round yields no accepted chunks
and the threshold is above 0.3, the function calls itself once with
`top_k = max(top_k, 12)` and `similarity_threshold = 0.3`. -/
def searchSimilarChunksWithRounds (o : SearchCollab) (top_k : Nat)
    (similarity_threshold : ℚ) : List Chunk × Nat :=
  let similar_chunks := processRound o top_k similarity_threshold
  if h : similar_chunks = [] ∧ (3 : ℚ)/10 < similarity_threshold then
    let r := searchSimilarChunksWithRounds o (max top_k 12) (3/10)
    (r.1, r.2 + 1)
  else
    (similar_chunks, 1)
termination_by (if (3 : ℚ)/10 < similarity_threshold then 1 else 0)
decreasing_by
  simp only [if_pos h.2]
  simp

/-- `EmbeddingService.search_similar_chunks`: the list the caller sees. -/
def searchSimilarChunks (o : SearchCollab) (top_k : Nat)
    (similarity_threshold : ℚ) : List Chunk :=
  (searchSimilarChunksWithRounds o top_k similarity_threshold).1

/-- Number of underlying vector-store query rounds one call performs. -/
def searchRounds (o : SearchCollab) (top_k : Nat)
    (similarity_threshold : ℚ) : Nat :=
  (searchSimilarChunksWithRounds o top_k similarity_threshold).2

end EmbeddingService

namespace DeepResearchAgent

/-- One entry of `ResearchState.retrieved_information`
(`app/agents/deep_research_agent.py`, `_retrieve_information`). -/
structure InfoEntry where
  question : String
  question_index : Int
  content : List Char
  similarity_score : ℚ
  chunk_id : String
  page_number : Option Int
  chunk_index : Option Int
deriving DecidableEq, Repr

/-- One entry of `ResearchState.sources_used`. -/
structure SourceEntry where
  chunk_id : String
  page_number : Option Int
  similarity_score : ℚ
  question : String
deriving DecidableEq, Repr

/-- The `ResearchState` pydantic model. -/
structure ResearchState where
  document_id : String
  topic : String
  research_query : String
  research_questions : List String := []
  retrieved_information : List InfoEntry := []
  content_outline : List (String × JVal) := []
  detailed_sections : List (String × JVal) := []
  sources_used : List SourceEntry := []
  current_step : String := "start"
  errors : List String := []
  task_id : Option String := none
deriving Repr

/-- The document attributes `_analyze_topic` reads inside the session scope
(`page_count`/`word_count` are nullable, rendered as `"Unknown"` then). -/
structure DocMeta where
  filename : String
  page_count : Option Nat
  word_count : Option Nat
deriving Repr

/-- Outcome of one `self.llm.ainvoke` call followed by `json.loads` on the
response content: the call raised, the content failed to parse, or it parsed
to a JSON value. -/
inductive LLMOutcome (α : Type) where
  | raised (msg : String)
  | unparsable (raw : String)
  | parsed (value : α)
deriving Repr

/-- Outcome of the question-generation call (`_generate_research_questions`):
raised, parsed to a JSON list, parsed to a non-list (kept as its `str()`
rendering), or unparsable raw content. -/
inductive QuestionsOutcome where
  | raised (msg : String)
  | parsedList (qs : List String)
  | parsedOther (rendered : String)
  | unparsable (raw : String)
deriving Repr

/-- Outcomes of every external call one research run makes.  LangGraph runs
the steps strictly sequentially, so one value per call site suffices;
per-question and per-section call sites are indexed. -/
structure Oracles where
  document : Option DocMeta
  analysis : LLMOutcome JVal
  questions : QuestionsOutcome
  questionSearch : Nat → Except String (List Chunk)
  topicSearch : Except String (List Chunk)
  outline : LLMOutcome JVal
  sectionContent : Nat → Except String String
  now : String

/-- `page_count or "Unknown"` as stored into `document_context`. -/
def docCountJ : Option Nat → JVal
  | none => .str "Unknown"
  | some n => .num n

/-- `DeepResearchAgent._analyze_topic`. -/
def analyzeTopic (o : Oracles) (s : ResearchState) : ResearchState :=
  match o.document with
  | none =>
      { s with errors := s.errors ++ ["Document " ++ s.document_id ++ " not found"] }
  | some doc =>
      match o.analysis with
      | .raised msg =>
          { s with errors := s.errors ++ ["Topic analysis error: " ++ msg] }
      | .parsed analysis =>
          { s with
            content_outline := dictUpdate s.content_outline
              [("topic_analysis", analysis),
               ("document_context", .obj
                 [("filename", .str doc.filename),
                  ("page_count", docCountJ doc.page_count),
                  ("word_count", docCountJ doc.word_count)])]
            current_step := "analyze_topic_complete" }
      | .unparsable raw =>
          { s with
            content_outline := dictSet s.content_outline "topic_analysis"
              (.obj [("raw_response", .str raw)])
            current_step := "analyze_topic_complete" }

/-- The `JSONDecodeError` fallback of `_generate_research_questions`: split
the raw content on newlines, keep lines that are non-blank and contain a
question mark, and strip the literal characters of `' -"â€¢'` from both
ends. -/
def questionFallback (raw : String) : List String :=
  ((raw.data.splitOn '\n').filter
      (fun l => stripChars pyWhitespace l ≠ [] ∧ '?' ∈ l)).map
    (fun l => String.mk (stripChars [' ', '-', '"', 'â', '€', '¢'] l))

/-- `DeepResearchAgent._generate_research_questions`. -/
def generateResearchQuestions (o : Oracles) (s : ResearchState) : ResearchState :=
  match o.questions with
  | .raised msg =>
      { s with errors := s.errors ++ ["Question generation error: " ++ msg] }
  | .parsedList qs =>
      { s with research_questions := qs, current_step := "questions_generated" }
  | .parsedOther rendered =>
      { s with research_questions := [rendered], current_step := "questions_generated" }
  | .unparsable raw =>
      { s with research_questions := questionFallback raw,
               current_step := "questions_generated" }

/-- The per-question loop of `_retrieve_information`, also counting the
`search_similar_chunks` calls it makes (one per question; a raising call is
logged and skipped, `continue`). -/
def retrieveQuestionLoop (o : Oracles) :
    List (Nat × String) → List InfoEntry → List SourceEntry → Nat →
    List InfoEntry × List SourceEntry × Nat
  | [], info, srcs, calls => (info, srcs, calls)
  | (i, q) :: rest, info, srcs, calls =>
    match o.questionSearch i with
    | .error _ => retrieveQuestionLoop o rest info srcs (calls + 1)
    | .ok chunks =>
        let step := fun (acc : List InfoEntry × List SourceEntry) (c : Chunk) =>
          let info_entry : InfoEntry :=
            { question := q, question_index := (i : Int), content := c.content,
              similarity_score := c.similarity_score, chunk_id := c.chunk_id,
              page_number := c.page_number, chunk_index := c.chunk_index }
          let source_entry : SourceEntry :=
            { chunk_id := c.chunk_id, page_number := c.page_number,
              similarity_score := c.similarity_score, question := q }
          (acc.1 ++ [info_entry],
           if source_entry ∈ acc.2 then acc.2 else acc.2 ++ [source_entry])
        let r := chunks.foldl step (info, srcs)
        retrieveQuestionLoop o rest r.1 r.2 (calls + 1)

/-- `DeepResearchAgent._retrieve_information`, instrumented with the number
of `embedding_service.search_similar_chunks` invocations it performs (the
per-question searches plus the general topic search; each search is wrapped
in its own `try/except` that logs and continues, so the outer handler is
unreachable). -/
def retrieveInformation (o : Oracles) (s : ResearchState) :
    ResearchState × Nat :=
  let r := retrieveQuestionLoop o s.research_questions.enum [] [] 0
  let topicInfo : List Chunk → List InfoEntry := fun chunks =>
    chunks.map fun c =>
      { question := "General topic: " ++ s.topic, question_index := -1,
        content := c.content, similarity_score := c.similarity_score,
        chunk_id := c.chunk_id, page_number := c.page_number,
        chunk_index := c.chunk_index }
  match o.topicSearch with
  | .error _ =>
      ({ s with retrieved_information := r.1, sources_used := r.2.1,
                current_step := "information_retrieved" }, r.2.2 + 1)
  | .ok chunks =>
      ({ s with retrieved_information := r.1 ++ topicInfo chunks,
                sources_used := r.2.1,
                current_step := "information_retrieved" }, r.2.2 + 1)

/-- `DeepResearchAgent._create_content_outline` (the prompt context built
from `retrieved_information[:20]` only feeds the LLM call, which is part of
the outcome). -/
def createContentOutline (o : Oracles) (s : ResearchState) : ResearchState :=
  match o.outline with
  | .raised msg =>
      { s with errors := s.errors ++ ["Outline creation error: " ++ msg] }
  | .parsed outline =>
      { s with
        content_outline := dictUpdate s.content_outline
          [("structured_outline", outline), ("creation_timestamp", .str o.now)]
        current_step := "outline_created" }
  | .unparsable raw =>
      { s with
        content_outline := dictUpdate s.content_outline
          [("raw_outline", .str raw), ("parsing_error", .str "JSON parsing failed")]
        current_step := "outline_created" }

/-- `section.get('section_title', f'Section {i+1}')`. -/
def sectionTitle (i : Nat) (sec : JVal) : String :=
  match sec with
  | .obj fields =>
      match jLookup fields "section_title" with
      | some (.str t) => t
      | _ => "Section " ++ String.mk (natChars (i + 1))
  | _ => "Section " ++ String.mk (natChars (i + 1))

/-- The keyword-relevance filter of `_generate_detailed_content`: keep the
retrieved entries whose lowercased content contains one of the lowercased
words of the section title as a substring. -/
def relevantInfoFor (title : String) (info : List InfoEntry) : List InfoEntry :=
  let keywords := (pyLowerWords title)
  (info.filter fun e =>
      keywords.any fun kw => kw <:+: (e.content.map Char.toLower)).take 5
where
  /-- `section_title.lower().split()`. -/
  pyLowerWords (t : String) : List (List Char) :=
    pySplitWs (t.data.map Char.toLower)
  /-- `str.split()` (whitespace runs as separators). -/
  pySplitWs (l : List Char) : List (List Char) :=
    ((l.splitOnP isPyWs).filter (· ≠ []))

/-- The per-section loop of `_generate_detailed_content`: each section gets
a dict entry keyed by its title; a raising generation call is caught
per-section and recorded as an error entry. -/
def detailedSectionsLoop (o : Oracles) (s : ResearchState) :
    List (Nat × JVal) → List (String × JVal) → List (String × JVal)
  | [], acc => acc
  | (i, sec) :: rest, acc =>
      let title := sectionTitle i sec
      let relevant := relevantInfoFor title s.retrieved_information
      let entry : JVal :=
        match o.sectionContent i with
        | .error e =>
            .obj [("content", .str ("Error generating content: " ++ e)),
                  ("error", .bool true)]
        | .ok content =>
            .obj [("content", .str content),
                  ("word_count", .num (pyWordCount content.data)),
                  ("sources_used", .num relevant.length),
                  ("section_metadata", sec)]
      detailedSectionsLoop o s rest (dictSet acc title entry)

/-- `DeepResearchAgent._generate_detailed_content`. -/
def generateDetailedContent (o : Oracles) (s : ResearchState) : ResearchState :=
  let main_sections : List JVal :=
    match jLookup s.content_outline "structured_outline" with
    | some (.obj outline) =>
        match jLookup outline "main_sections" with
        | some (.arr secs) => secs
        | _ => []
    | _ => []
  { s with detailed_sections := detailedSectionsLoop o s main_sections.enum [],
           current_step := "content_generated" }

/-- `DeepResearchAgent._calculate_quality_score`: base 5.0, five independent
1.0 bonuses, capped at 10.0 (the `except: return 5.0` guard is unreachable
for the pure computation). -/
def calculateQualityScore (s : ResearchState) : ℚ :=
  let score : ℚ := 5
  let score := if s.research_questions.length ≥ 5 then score + 1 else score
  let score := if s.retrieved_information.length ≥ 10 then score + 1 else score
  let high_similarity_count :=
    (s.retrieved_information.filter (fun e => (8 : ℚ)/10 < e.similarity_score)).length
  let score := if high_similarity_count ≥ 5 then score + 1 else score
  let score := if s.detailed_sections.length ≥ 3 then score + 1 else score
  let score := if s.errors = [] then score + 1 else score
  min 10 score

/-- `DeepResearchAgent._finalize_research`. -/
def finalizeResearch (o : Oracles) (s : ResearchState) : ResearchState :=
  { s with
    content_outline := dictUpdate s.content_outline
      [("research_completed_at", .str o.now),
       ("total_sections_generated", .num s.detailed_sections.length),
       ("total_sources_used", .num s.sources_used.length),
       ("research_quality_score", .num (calculateQualityScore s))]
    current_step := "completed" }

/-- The node names of the compiled research workflow, in the order the
linear edge chain of `_create_workflow` executes them (entry
`analyze_topic`, unconditional edges through to `finalize_research`, then
`END`). -/
def researchStepNames : List String :=
  ["analyze_topic", "generate_questions", "retrieve_information",
   "create_outline", "generate_content", "finalize_research"]

/-- One run of the compiled workflow (`workflow.ainvoke`): the six nodes in
edge order, each exactly once (every edge of `_create_workflow` is
unconditional).  Returns the final state, the trace of executed nodes, and
the total number of `search_similar_chunks` calls made. -/
def runResearchWorkflow (o : Oracles) (s0 : ResearchState) :
    ResearchState × List String × Nat :=
  let s1 := analyzeTopic o s0
  let s2 := generateResearchQuestions o s1
  let r3 := retrieveInformation o s2
  let s4 := createContentOutline o r3.1
  let s5 := generateDetailedContent o s4
  let s6 := finalizeResearch o s5
  (s6, researchStepNames, r3.2)

/-- The caller-visible result of `conduct_research`. -/
structure ResearchResult where
  task_id : String
  document_id : String
  topic : String
  content_outline : List (String × JVal)
  detailed_sections : List (String × JVal)
  sources_used : List SourceEntry
  research_questions : List String
  status : String
  errors : List String
deriving Repr

/-- The `ResearchTask` row as `_update_research_task` leaves it. -/
structure TaskRecord where
  status : String
  error_message : Option String
deriving DecidableEq, Repr

/-- `DeepResearchAgent.conduct_research`: create the task, run the workflow,
then persist and return `completed`/`failed` depending on the accumulated
errors (`task_id` generation is part of the persistence collaborator). -/
def conductResearch (o : Oracles) (task_id document_id topic : String)
    (custom_query : Option String) : ResearchResult × TaskRecord :=
  let query :=
    match custom_query with
    | some q => if q = "" then topic else q  -- `custom_query or topic`
    | none => topic
  let s0 : ResearchState :=
    { document_id := document_id, topic := topic, research_query := query,
      task_id := some task_id }
  let final_state := (runResearchWorkflow o s0).1
  let status := if final_state.errors = [] then "completed" else "failed"
  ({ task_id := task_id, document_id := document_id, topic := topic,
     content_outline := final_state.content_outline,
     detailed_sections := final_state.detailed_sections,
     sources_used := final_state.sources_used,
     research_questions := final_state.research_questions,
     status := status, errors := final_state.errors },
   { status := status,
     error_message :=
       if final_state.errors = [] then none
       else some (String.intercalate "; " final_state.errors) })

end DeepResearchAgent

namespace ChatAgentWithTools

/-- One tool-call request emitted by the model (`name`, opaque `args`
payload, call `id`). -/
structure ToolCall where
  name : String
  args : String
  id : String
deriving DecidableEq, Repr

/-- A LangChain message.  Only `AIMessage` carries the `tool_calls`
attribute (the `hasattr(msg, 'tool_calls')` checks). -/
inductive ChatMsg where
  | human (content : String)
  | system (content : String)
  | ai (content : String) (tool_calls : List ToolCall)
  | tool (content : String) (tool_call_id : String)
deriving DecidableEq, Repr

/-- `hasattr(msg, 'tool_calls')` and, when present, the attribute's value. -/
def msgToolCalls : ChatMsg → Option (List ToolCall)
  | .ai _ tcs => some tcs
  | _ => none

/-- The `ChatState` pydantic model of `app/agents/chat_agent_with_tools.py`
(chat-history entries are `(role, content)` pairs; `sources_used` holds the
chunk dicts collected from the search tool). -/
structure ChatState where
  messages : List ChatMsg := []
  session_id : Option String := none
  document_id : Option String := none
  chat_history : List (String × String) := []
  sources_used : List Chunk := []
  tool_calls : List String := []
  current_step : String := "start"
  errors : List String := []
deriving Repr

/-- `ChatAgentWithTools._should_use_tools`: `"tools"` iff the message list is
non-empty and its last message has a non-empty `tool_calls` attribute. -/
def shouldUseTools (s : ChatState) : String :=
  match s.messages.getLast? with
  | none => "save"
  | some last =>
      match msgToolCalls last with
      | none => "save"
      | some tcs => if ¬tcs.isEmpty then "tools" else "save"

/-- `ChatAgentWithTools._load_chat_context`.  The database read (the ten
most recent messages, most-recent-first) is passed in as its outcome; the
step reverses them into chronological `(role, content)` history. -/
def loadChatContext (recent : Except String (List (String × String)))
    (s : ChatState) : ChatState :=
  match s.session_id with
  | none => { s with current_step := "context_loaded" }
  | some _ =>
      match recent with
      | .error e =>
          { s with errors := s.errors ++ ["Context loading error: " ++ e] }
      | .ok msgs =>
          { s with chat_history := msgs.reverse, current_step := "context_loaded" }

/-- `ChatAgentWithTools._run_agent`.  The bound-tools LLM call is passed in
as its outcome: the response content together with its tool-call requests
(the model only requests tools here; none are executed, so the
sources-storage hook stays empty). -/
def runAgent (response : Except String (String × List ToolCall))
    (s : ChatState) : ChatState :=
  match response with
  | .error e =>
      { s with
        errors := s.errors ++ ["Agent error: " ++ e]
        messages := s.messages
          ++ [.ai ("I apologize, but I encountered an error: " ++ e) []] }
  | .ok (content, tcs) =>
      { s with
        messages := s.messages ++ [.ai content tcs]
        tool_calls := s.tool_calls ++ (if ¬tcs.isEmpty then tcs.map (·.name) else [])
        current_step := "agent_complete" }

/-- The per-tool-call loop of `_run_tools`.  The only registered tool is
`search_document`; a call to an unknown tool name is silently skipped.  Each
executed call is passed in as its outcome: the JSON-dumped result string and
the chunks handed to the sources-storage hook; a raising call aborts the
loop into the step's `except` handler (prior in-place mutations persist). -/
def runToolsLoop (toolResult : Nat → Except String (String × List Chunk)) :
    List (Nat × ToolCall) → ChatState → ChatState
  | [], s => { s with current_step := "tools_complete" }
  | (i, tc) :: rest, s =>
      if tc.name = "search_document" then
        match toolResult i with
        | .error e =>
            { s with errors := s.errors ++ ["Tool execution error: " ++ e] }
        | .ok (content, srcs) =>
            runToolsLoop toolResult rest
              { s with messages := s.messages ++ [.tool content tc.id],
                       sources_used := s.sources_used ++ srcs }
      else runToolsLoop toolResult rest s

/-- `ChatAgentWithTools._run_tools`.  With an empty message list,
`state.messages[-1]` raises `IndexError`, caught by the step's handler; with
a last message lacking (or with empty) `tool_calls`, the step returns the
state unchanged (early `return state`). -/
def runTools (toolResult : Nat → Except String (String × List Chunk))
    (s : ChatState) : ChatState :=
  match s.messages.getLast? with
  | none =>
      { s with errors := s.errors ++ ["Tool execution error: list index out of range"] }
  | some last =>
      match msgToolCalls last with
      | none => s
      | some [] => s
      | some tcs => runToolsLoop toolResult tcs.enum s

/-- `ChatAgentWithTools._save_chat_interaction`.  The database block runs
only when a session id is set and messages exist; its outcome is passed in
(the written `ChatMessage` rows belong to the persistence collaborator and
are outside this embedding). -/
def saveChatInteraction (dbWrite : Except String Unit) (s : ChatState) :
    ChatState :=
  if s.session_id.isSome ∧ ¬s.messages.isEmpty then
    match dbWrite with
    | .error e =>
        { s with errors := s.errors ++ ["Save interaction error: " ++ e] }
    | .ok _ => { s with current_step := "interaction_saved" }
  else { s with current_step := "interaction_saved" }

end ChatAgentWithTools

namespace ChatRagAgent

/-- One entry of `ChatState.sources_used` in `app/agents/chat_rag_agent.py`:
chunk id, page, score and a 100-character content preview with ellipsis. -/
structure RagSource where
  chunk_id : String
  page_number : Option Int
  similarity_score : ℚ
  preview : List Char
deriving DecidableEq, Repr

/-- The `ChatState` pydantic model of the chat/RAG agent. -/
structure RagState where
  message : String
  session_id : Option String := none
  document_id : Option String := none
  use_rag : Bool := true
  chat_history : List (String × String) := []
  retrieved_chunks : List Chunk := []
  context_used : List Char := []
  response : String := ""
  sources_used : List RagSource := []
  token_count : Option ℚ := none
  current_step : String := "start"
  errors : List String := []
deriving Repr

/-- `ChatRAGAgent._load_chat_context` (same logic as the tools agent's). -/
def loadChatContext (recent : Except String (List (String × String)))
    (s : RagState) : RagState :=
  match s.session_id with
  | none => { s with current_step := "context_loaded" }
  | some _ =>
      match recent with
      | .error e =>
          { s with errors := s.errors ++ ["Context loading error: " ++ e] }
      | .ok msgs =>
          { s with chat_history := msgs.reverse, current_step := "context_loaded" }

/-- The retrieval keywords of `_should_retrieve`. -/
def retrievalKeywords : List String :=
  ["what", "how", "when", "where", "why", "who", "which",
   "tell me", "explain", "show me", "find", "search",
   "revenue", "profit", "financial", "investment", "data",
   "metrics", "performance", "growth", "risk"]

/-- `ChatRAGAgent._should_retrieve`: retrieve only when RAG is on, a
document is bound, and the lowercased message contains one of the keywords
as a substring. -/
def shouldRetrieve (s : RagState) : String :=
  if ¬s.use_rag ∨ s.document_id.isNone then "generate"
  else
    let message_lower := s.message.data.map Char.toLower
    if retrievalKeywords.any (fun kw => kw.data <:+: message_lower) then "retrieve"
    else "generate"

/-- Context line for one retrieved chunk:
`f"[{page_info}] {chunk['content'][:500]}..."`. -/
def contextPart (c : Chunk) : List Char :=
  let page_info :=
    match c.page_number with
    | some p => "Page ".data ++ intChars p
    | none => "Source document".data  -- `if chunk.get('page_number')` falsy
  '[' :: page_info ++ "] ".data ++ c.content.take 500 ++ "...".data

/-- `ChatRAGAgent._retrieve_relevant_information`.  The similarity search
and the optional financial-facts summary read from the document record are
passed in as outcomes (`facts` is the rendered `Key Financial Facts` block
when the document exists and has facts).  Note the `except` handler of this
step both appends the error and still advances `current_step`. -/
def retrieveRelevantInformation (search : Except String (List Chunk))
    (facts : Option (List Char)) (s : RagState) : RagState :=
  match search with
  | .error e =>
      { s with errors := s.errors ++ ["Information retrieval error: " ++ e],
               current_step := "information_retrieved" }
  | .ok similar_chunks =>
      let context_parts := similar_chunks.map contextPart
      let sources_used := similar_chunks.map fun c =>
        { chunk_id := c.chunk_id, page_number := c.page_number,
          similarity_score := c.similarity_score,
          preview := c.content.take 100 ++ "...".data : RagSource }
      let base_context := List.intercalate "\n\n".data context_parts
      let context_used :=
        match s.document_id, facts with
        | some _, some summary => summary ++ "\n\n".data ++ base_context
        | _, _ => base_context
      { s with retrieved_chunks := similar_chunks,
               context_used := context_used,
               sources_used := sources_used,
               current_step := "information_retrieved" }

/-- `ChatRAGAgent._estimate_tokens`: `len(text.split()) * 1.3` (a float in
this agent). -/
def estimateTokens (text : String) : ℚ :=
  (pyWordCount text.data : ℚ) * (13 / 10)

/-- `ChatRAGAgent._generate_response`.  The LLM call is passed in as its
outcome; its `except` handler appends the error and substitutes an apology
response without advancing `current_step`. -/
def generateResponse (llm : Except String String) (s : RagState) : RagState :=
  match llm with
  | .error e =>
      { s with errors := s.errors ++ ["Response generation error: " ++ e],
               response := "I apologize, but I encountered an error generating a response: " ++ e }
  | .ok content =>
      { s with response := content,
               token_count := some (estimateTokens content),
               current_step := "response_generated" }

/-- `ChatRAGAgent._save_chat_interaction` (database block only when a
session id is set; written rows belong to the persistence collaborator). -/
def saveChatInteraction (dbWrite : Except String Unit) (s : RagState) :
    RagState :=
  match s.session_id with
  | none => { s with current_step := "interaction_saved" }
  | some _ =>
      match dbWrite with
      | .error e =>
          { s with errors := s.errors ++ ["Save interaction error: " ++ e] }
      | .ok _ => { s with current_step := "interaction_saved" }

end ChatRagAgent

namespace MetadataExtractor

/-- `RevenueData` (`app/database/schemas.py`): nullable floats plus currency
and period defaults. -/
structure RevenueData where
  current_year : Option ℚ := none
  previous_year : Option ℚ := none
  currency : String := "USD"
  period : String := "annual"
deriving DecidableEq, Repr

/-- `ProfitLossData`. -/
structure ProfitLossData where
  net_income : Option ℚ := none
  gross_profit : Option ℚ := none
  operating_profit : Option ℚ := none
  currency : String := "USD"
deriving DecidableEq, Repr

/-- `CashFlowData`. -/
structure CashFlowData where
  operating_cash_flow : Option ℚ := none
  free_cash_flow : Option ℚ := none
  currency : String := "USD"
deriving DecidableEq, Repr

/-- `DebtEquityData`. -/
structure DebtEquityData where
  total_debt : Option ℚ := none
  equity : Option ℚ := none
  debt_to_equity_ratio : Option ℚ := none
deriving DecidableEq, Repr

/-- `OtherMetrics`. -/
structure OtherMetrics where
  ebitda : Option ℚ := none
  margin_percentage : Option ℚ := none
  growth_rate : Option ℚ := none
deriving DecidableEq, Repr

/-- `FinancialFacts`: the structured-output schema of the financial
extraction call. -/
structure FinancialFacts where
  revenue : RevenueData := {}
  profit_loss : ProfitLossData := {}
  cash_flow : CashFlowData := {}
  debt_equity : DebtEquityData := {}
  other_metrics : OtherMetrics := {}
deriving DecidableEq, Repr

/-- `MarketOpportunity`. -/
structure MarketOpportunity where
  market_size : Option ℚ := none
  growth_rate : Option ℚ := none
  competitive_position : Option String := none
deriving DecidableEq, Repr

/-- `BusinessModel`. -/
structure BusinessModel where
  type : Option String := none
  revenue_streams : List String := []
  key_customers : List String := []
deriving DecidableEq, Repr

/-- `ExitStrategy`. -/
structure ExitStrategy where
  timeline : Option String := none
  target_multiple : Option ℚ := none
  potential_buyers : List String := []
deriving DecidableEq, Repr

/-- `InvestmentData`: the structured-output schema of the investment
extraction call. -/
structure InvestmentData where
  investment_highlights : List String := []
  risk_factors : List String := []
  market_opportunity : MarketOpportunity := {}
  business_model : BusinessModel := {}
  strategic_initiatives : List String := []
  exit_strategy : ExitStrategy := {}
deriving DecidableEq, Repr

/-- An `Optional[float]` field after `model_dump()`. -/
def optNumJ : Option ℚ → JVal
  | none => .null
  | some q => .num q

/-- An `Optional[str]` field after `model_dump()`. -/
def optStrJ : Option String → JVal
  | none => .null
  | some s => .str s

/-- A `List[str]` field after `model_dump()`. -/
def strListJ (xs : List String) : JVal :=
  .arr (xs.map .str)

/-- `FinancialFacts.model_dump()`. -/
def FinancialFacts.dump (f : FinancialFacts) : List (String × JVal) :=
  [("revenue", .obj
      [("current_year", optNumJ f.revenue.current_year),
       ("previous_year", optNumJ f.revenue.previous_year),
       ("currency", .str f.revenue.currency),
       ("period", .str f.revenue.period)]),
   ("profit_loss", .obj
      [("net_income", optNumJ f.profit_loss.net_income),
       ("gross_profit", optNumJ f.profit_loss.gross_profit),
       ("operating_profit", optNumJ f.profit_loss.operating_profit),
       ("currency", .str f.profit_loss.currency)]),
   ("cash_flow", .obj
      [("operating_cash_flow", optNumJ f.cash_flow.operating_cash_flow),
       ("free_cash_flow", optNumJ f.cash_flow.free_cash_flow),
       ("currency", .str f.cash_flow.currency)]),
   ("debt_equity", .obj
      [("total_debt", optNumJ f.debt_equity.total_debt),
       ("equity", optNumJ f.debt_equity.equity),
       ("debt_to_equity_ratio", optNumJ f.debt_equity.debt_to_equity_ratio)]),
   ("other_metrics", .obj
      [("ebitda", optNumJ f.other_metrics.ebitda),
       ("margin_percentage", optNumJ f.other_metrics.margin_percentage),
       ("growth_rate", optNumJ f.other_metrics.growth_rate)])]

/-- `InvestmentData.model_dump()`. -/
def InvestmentData.dump (d : InvestmentData) : List (String × JVal) :=
  [("investment_highlights", strListJ d.investment_highlights),
   ("risk_factors", strListJ d.risk_factors),
   ("market_opportunity", .obj
      [("market_size", optNumJ d.market_opportunity.market_size),
       ("growth_rate", optNumJ d.market_opportunity.growth_rate),
       ("competitive_position", optStrJ d.market_opportunity.competitive_position)]),
   ("business_model", .obj
      [("type", optStrJ d.business_model.type),
       ("revenue_streams", strListJ d.business_model.revenue_streams),
       ("key_customers", strListJ d.business_model.key_customers)]),
   ("strategic_initiatives", strListJ d.strategic_initiatives),
   ("exit_strategy", .obj
      [("timeline", optStrJ d.exit_strategy.timeline),
       ("target_multiple", optNumJ d.exit_strategy.target_multiple),
       ("potential_buyers", strListJ d.exit_strategy.potential_buyers)])]

/-- `isinstance(v, dict)` projection. -/
def asObj : Option JVal → Option (List (String × JVal))
  | some (.obj fs) => some fs
  | _ => none

/-- `isinstance(v, list)` projection. -/
def asArr : Option JVal → Option (List JVal)
  | some (.arr xs) => some xs
  | _ => none

/-- Minimal model of Python's `float(s)`/`int(s)` parsing used by
`clean_numeric_field` on string inputs: optional sign, digits, optional
decimal point (only string shapes that `model_dump()` can never produce
reach this branch). -/
def pyNumParse (s : String) : Option ℚ :=
  let l := stripChars pyWhitespace s.data
  let (sign, digitsPart) : ℚ × List Char :=
    match l with
    | '-' :: rest => (-1, rest)
    | '+' :: rest => (1, rest)
    | _ => (1, l)
  let intPart := digitsPart.takeWhile Char.isDigit
  let rest := digitsPart.drop intPart.length
  let digitsVal : List Char → ℚ := fun ds =>
    ds.foldl (fun acc c => acc * 10 + (c.toNat - '0'.toNat : ℕ)) 0
  match rest with
  | [] => if intPart.isEmpty then none else some (sign * digitsVal intPart)
  | '.' :: fracDigits =>
      if fracDigits.all Char.isDigit ∧ ¬(intPart.isEmpty ∧ fracDigits.isEmpty) then
        some (sign * (digitsVal intPart
          + digitsVal fracDigits / (10 ^ fracDigits.length)))
      else none
  | _ => none

/-- `clean_numeric_field` of `MetadataExtractor._clean_financial_data`:
`None`/`"null"`/`""` become `None`, numbers pass through, parseable strings
are parsed, everything else becomes `None`. -/
def cleanNumericField : Option JVal → JVal
  | none => .null
  | some .null => .null
  | some (.num q) => .num q
  | some (.bool b) => .bool b  -- Python bool is an int; passes `isinstance(value, int)`
  | some (.str s) =>
      if s = "null" ∨ s = "" then .null
      else match pyNumParse s with
           | some q => .num q
           | none => .null
  | some _ => .null

/-- `clean_currency_field`: `None`/`"null"`/`""` default to `"USD"`;
non-blank strings are stripped and upper-cased; anything else is `"USD"`. -/
def cleanCurrencyField : Option JVal → JVal
  | some (.str s) =>
      if s = "null" ∨ s = "" then .str "USD"
      else if pyStrip s ≠ "" then .str (pyUpper (pyStrip s))
      else .str "USD"
  | _ => .str "USD"

/-- The `period` expression of `_clean_financial_data`:
`revenue.get("period", "annual") if revenue.get("period") and
revenue.get("period") != "null" else "annual"`. -/
def cleanPeriodField : Option JVal → JVal
  | some (.str p) => if p ≠ "" ∧ p ≠ "null" then .str p else .str "annual"
  | some v => if pyTruthy v then v else .str "annual"
  | none => .str "annual"

/-- `MetadataExtractor._clean_financial_data`: rebuild each section that is
present as a dict, cleaning every field (sections absent or non-dict are
dropped — `model_dump()` always supplies all five). -/
def cleanFinancialData (data : List (String × JVal)) : List (String × JVal) :=
  (match asObj (jLookup data "revenue") with
   | some revenue =>
       [("revenue", .obj
          [("current_year", cleanNumericField (jLookup revenue "current_year")),
           ("previous_year", cleanNumericField (jLookup revenue "previous_year")),
           ("currency", cleanCurrencyField (jLookup revenue "currency")),
           ("period", cleanPeriodField (jLookup revenue "period"))])]
   | none => []) ++
  (match asObj (jLookup data "profit_loss") with
   | some profit_loss =>
       [("profit_loss", .obj
          [("net_income", cleanNumericField (jLookup profit_loss "net_income")),
           ("gross_profit", cleanNumericField (jLookup profit_loss "gross_profit")),
           ("operating_profit", cleanNumericField (jLookup profit_loss "operating_profit")),
           ("currency", cleanCurrencyField (jLookup profit_loss "currency"))])]
   | none => []) ++
  (match asObj (jLookup data "cash_flow") with
   | some cash_flow =>
       [("cash_flow", .obj
          [("operating_cash_flow", cleanNumericField (jLookup cash_flow "operating_cash_flow")),
           ("free_cash_flow", cleanNumericField (jLookup cash_flow "free_cash_flow")),
           ("currency", cleanCurrencyField (jLookup cash_flow "currency"))])]
   | none => []) ++
  (match asObj (jLookup data "debt_equity") with
   | some debt_equity =>
       [("debt_equity", .obj
          [("total_debt", cleanNumericField (jLookup debt_equity "total_debt")),
           ("equity", cleanNumericField (jLookup debt_equity "equity")),
           ("debt_to_equity_ratio", cleanNumericField (jLookup debt_equity "debt_to_equity_ratio"))])]
   | none => []) ++
  (match asObj (jLookup data "other_metrics") with
   | some other_metrics =>
       [("other_metrics", .obj
          [("ebitda", cleanNumericField (jLookup other_metrics "ebitda")),
           ("margin_percentage", cleanNumericField (jLookup other_metrics "margin_percentage")),
           ("growth_rate", cleanNumericField (jLookup other_metrics "growth_rate"))])]
   | none => [])

/-- `str(item)` for the values reaching `_clean_investment_data`'s list
cleaning (only strings occur after `model_dump()` of `List[str]` fields;
other constructors get Python's canonical renderings, arr/obj loosely). -/
def jvalStr : JVal → String
  | .str s => s
  | .null => "None"
  | .bool true => "True"
  | .bool false => "False"
  | .num q => toString q.num ++ (if q.den = 1 then "" else "/" ++ toString q.den)
  | .arr _ => "[...]"
  | .obj _ => "{...}"

/-- List cleaning of `_clean_investment_data`:
`[str(item).strip() for item in field_value if item and str(item).strip()]`. -/
def cleanStrList (xs : List JVal) : List JVal :=
  (xs.filter (fun item => pyTruthy item ∧ pyStrip (jvalStr item) ≠ "")).map
    (fun item => .str (pyStrip (jvalStr item)))

/-- A list-valued field of the raw dict: cleaned when it is a list, `[]`
otherwise. -/
def cleanListField (v : Option JVal) : JVal :=
  match asArr v with
  | some xs => .arr (cleanStrList xs)
  | none => .arr []

/-- `str(v).strip() if v else None` (used for `competitive_position`,
`type` and `timeline`). -/
def cleanOptStrField (v : Option JVal) : JVal :=
  match v with
  | some w => if pyTruthy w then .str (pyStrip (jvalStr w)) else .null
  | none => .null

/-- A field copied through unchanged (`.get(...)`, `None` when absent). -/
def rawField (v : Option JVal) : JVal :=
  match v with
  | some w => w
  | none => .null

/-- `MetadataExtractor._clean_investment_data` (its `except` fallback, which
returns a partially built structure, is unreachable for the pure field
operations modelled here). -/
def cleanInvestmentData (raw : List (String × JVal)) : List (String × JVal) :=
  [("investment_highlights", cleanListField (jLookup raw "investment_highlights")),
   ("risk_factors", cleanListField (jLookup raw "risk_factors")),
   ("strategic_initiatives", cleanListField (jLookup raw "strategic_initiatives"))]
  ++ [("market_opportunity",
        match asObj (jLookup raw "market_opportunity") with
        | some market_opp => .obj
            [("market_size", rawField (jLookup market_opp "market_size")),
             ("growth_rate", rawField (jLookup market_opp "growth_rate")),
             ("competitive_position", cleanOptStrField (jLookup market_opp "competitive_position"))]
        | none => .obj
            [("market_size", .null), ("growth_rate", .null),
             ("competitive_position", .null)])]
  ++ [("business_model",
        match asObj (jLookup raw "business_model") with
        | some business_model => .obj
            [("type", cleanOptStrField (jLookup business_model "type")),
             ("revenue_streams", cleanListField (jLookup business_model "revenue_streams")),
             ("key_customers", cleanListField (jLookup business_model "key_customers"))]
        | none => .obj
            [("type", .null), ("revenue_streams", .arr []),
             ("key_customers", .arr [])])]
  ++ [("exit_strategy",
        match asObj (jLookup raw "exit_strategy") with
        | some exit_strategy => .obj
            [("timeline", cleanOptStrField (jLookup exit_strategy "timeline")),
             ("target_multiple", rawField (jLookup exit_strategy "target_multiple")),
             ("potential_buyers", cleanListField (jLookup exit_strategy "potential_buyers"))]
        | none => .obj
            [("timeline", .null), ("target_multiple", .null),
             ("potential_buyers", .arr [])])]

/-- The literal all-null financial fallback dict, returned by every failure
path of the financial extraction (`_extract_financial_facts_core`'s
`except`, `extract_metadata`'s primary `except` and final guard,
`_extract_financial_facts_alternative`'s empty/`except` returns). -/
def emptyFinancialFactsDict : List (String × JVal) :=
  [("revenue", .obj
      [("current_year", .null), ("previous_year", .null),
       ("currency", .str "USD"), ("period", .str "annual")]),
   ("profit_loss", .obj
      [("net_income", .null), ("gross_profit", .null),
       ("operating_profit", .null), ("currency", .str "USD")]),
   ("cash_flow", .obj
      [("operating_cash_flow", .null), ("free_cash_flow", .null),
       ("currency", .str "USD")]),
   ("debt_equity", .obj
      [("total_debt", .null), ("equity", .null),
       ("debt_to_equity_ratio", .null)]),
   ("other_metrics", .obj
      [("ebitda", .null), ("margin_percentage", .null),
       ("growth_rate", .null)])]

/-- The literal empty investment fallback dict (all failure paths of the
investment extraction). -/
def emptyInvestmentDataDict : List (String × JVal) :=
  [("investment_highlights", .arr []),
   ("risk_factors", .arr []),
   ("market_opportunity", .obj
      [("market_size", .null), ("growth_rate", .null),
       ("competitive_position", .null)]),
   ("business_model", .obj
      [("type", .null), ("revenue_streams", .arr []),
       ("key_customers", .arr [])]),
   ("strategic_initiatives", .arr []),
   ("exit_strategy", .obj
      [("timeline", .null), ("target_multiple", .null),
       ("potential_buyers", .arr [])])]

/-- Outcome of one structured-output generation call
(`openai_client.beta.chat.completions.parse`): the call raised, the parsed
payload was `None`, or a validated schema value came back. -/
inductive GenOutcome (α : Type) where
  | raised (msg : String)
  | parsedNone
  | parsed (value : α)
deriving Repr

/-- `MetadataExtractor._extract_financial_facts_core`: clean the validated
payload, or substitute the all-null structure when the call raises or
parses to `None`. -/
def extractFinancialFactsCore (gen : GenOutcome FinancialFacts) :
    List (String × JVal) :=
  match gen with
  | .raised _ => emptyFinancialFactsDict
  | .parsedNone => emptyFinancialFactsDict
  | .parsed financial_facts => cleanFinancialData financial_facts.dump

/-- `MetadataExtractor._extract_investment_data_core`: same pattern with the
investment schema and the empty-collection fallback. -/
def extractInvestmentDataCore (gen : GenOutcome InvestmentData) :
    List (String × JVal) :=
  match gen with
  | .raised _ => emptyInvestmentDataDict
  | .parsedNone => emptyInvestmentDataDict
  | .parsed investment_data => cleanInvestmentData investment_data.dump

/-- Required keys of the financial-facts schema, per section. -/
def financialSchemaKeys : List (String × List String) :=
  [("revenue", ["current_year", "previous_year", "currency", "period"]),
   ("profit_loss", ["net_income", "gross_profit", "operating_profit", "currency"]),
   ("cash_flow", ["operating_cash_flow", "free_cash_flow", "currency"]),
   ("debt_equity", ["total_debt", "equity", "debt_to_equity_ratio"]),
   ("other_metrics", ["ebitda", "margin_percentage", "growth_rate"])]

/-- Every section present as a dict with every required key present. -/
def hasFinancialSchema (d : List (String × JVal)) : Bool :=
  financialSchemaKeys.all fun sec =>
    match asObj (jLookup d sec.1) with
    | some o => sec.2.all fun k => (jLookup o k).isSome
    | none => false

/-- Numeric keys of the financial-facts schema, per section. -/
def financialNumericKeys : List (String × List String) :=
  [("revenue", ["current_year", "previous_year"]),
   ("profit_loss", ["net_income", "gross_profit", "operating_profit"]),
   ("cash_flow", ["operating_cash_flow", "free_cash_flow"]),
   ("debt_equity", ["total_debt", "equity", "debt_to_equity_ratio"]),
   ("other_metrics", ["ebitda", "margin_percentage", "growth_rate"])]

/-- Currency keys of the financial-facts schema. -/
def financialCurrencyKeys : List String := ["revenue", "profit_loss", "cash_flow"]

/-- A JSON value is the literal `null`. -/
def jIsNull : JVal → Bool
  | .null => true
  | _ => false

/-- A JSON value is the literal string `"USD"`. -/
def jIsUSD : JVal → Bool
  | .str s => s = "USD"
  | _ => false

/-- A JSON value is the literal empty list. -/
def jIsEmptyArr : JVal → Bool
  | .arr xs => xs.isEmpty
  | _ => false

/-- The failure-shape check for financial facts: every numeric field null
and every currency field `"USD"`. -/
def financialDefaultsOk (d : List (String × JVal)) : Bool :=
  (financialNumericKeys.all fun sec =>
    match asObj (jLookup d sec.1) with
    | some o => sec.2.all fun k => ((jLookup o k).map jIsNull).getD false
    | none => false) &&
  (financialCurrencyKeys.all fun sec =>
    match asObj (jLookup d sec) with
    | some o => ((jLookup o "currency").map jIsUSD).getD false
    | none => false)

/-- Required keys of the investment-data schema: top-level list fields,
then the nested sections. -/
def investmentListKeys : List String :=
  ["investment_highlights", "risk_factors", "strategic_initiatives"]

/-- Nested sections and their required keys. -/
def investmentNestedKeys : List (String × List String) :=
  [("market_opportunity", ["market_size", "growth_rate", "competitive_position"]),
   ("business_model", ["type", "revenue_streams", "key_customers"]),
   ("exit_strategy", ["timeline", "target_multiple", "potential_buyers"])]

/-- Every required key of the investment schema present (list fields as
lists, nested sections as dicts with their keys). -/
def hasInvestmentSchema (d : List (String × JVal)) : Bool :=
  (investmentListKeys.all fun k => (asArr (jLookup d k)).isSome) &&
  (investmentNestedKeys.all fun sec =>
    match asObj (jLookup d sec.1) with
    | some o => sec.2.all fun k => (jLookup o k).isSome
    | none => false)

/-- The failure-shape check for investment data: every list field (top-level
and nested) the empty list, every other field null. -/
def investmentDefaultsOk (d : List (String × JVal)) : Bool :=
  (investmentListKeys.all fun k => ((jLookup d k).map jIsEmptyArr).getD false) &&
  (investmentNestedKeys.all fun sec =>
    match asObj (jLookup d sec.1) with
    | some o => sec.2.all fun k =>
        ((jLookup o k).map (fun v => jIsNull v || jIsEmptyArr v)).getD false
    | none => false)

end MetadataExtractor

/-- Generic counter for `re.findall(pattern, text, re.MULTILINE)` with a
`^`-anchored pattern: scan left to right, attempt the pattern at each line
start, and on a match (`matchAt` returns `some n` for a match of `n + 1`
characters) resume scanning after it.  The first argument is the number of
characters of the current match still to skip; the `Bool` tracks whether the
scan position is a line start. -/
def countGo (matchAt : List Char → Option Nat) :
    Nat → Bool → List Char → Nat
  | _, _, [] => 0
  | 0, atLineStart, c :: rest =>
      if atLineStart then
        match matchAt (c :: rest) with
        | some n => 1 + countGo matchAt n (c = '\n') rest
        | none => countGo matchAt 0 (c = '\n') rest
      else countGo matchAt 0 (c = '\n') rest
  | k + 1, _, c :: rest => countGo matchAt k (c = '\n') rest

/-- `len(re.findall(pattern, text, re.MULTILINE))` for a `^`-anchored
pattern (position 0 is a line start). -/
def countPattern (matchAt : List Char → Option Nat) (text : List Char) : Nat :=
  countGo matchAt 0 true text

/-- `[A-Z]` (ASCII range, as in the source patterns). -/
def isUpperAZ (c : Char) : Bool := 'A' ≤ c ∧ c ≤ 'Z'

/-- `[IVX]`. -/
def isRoman (c : Char) : Bool := c = 'I' ∨ c = 'V' ∨ c = 'X'

/-- `[0-9]`. -/
def isDigit09 (c : Char) : Bool := '0' ≤ c ∧ c ≤ '9'

/-- Matcher for `[0-9]+\.\s+[A-Z]` / `[IVX]+\.\s+[A-Z]` at the current
position (the leading `^` is handled by `countGo`): one or more
`first`-class characters, a dot, one or more whitespace characters (which
may span newlines), one uppercase letter.  Returns the match length minus
one.  No backtracking is needed: the greedy runs are followed by characters
outside their classes. -/
def matchDotSection (first : Char → Bool) (l : List Char) : Option Nat :=
  let ds := l.takeWhile first
  if ds.isEmpty then none
  else
    match l.drop ds.length with
    | '.' :: afterDot =>
        let ws := afterDot.takeWhile isPyWs
        if ws.isEmpty then none
        else
          match afterDot.drop ws.length with
          | c :: _ => if isUpperAZ c then some (ds.length + ws.length + 1) else none
          | [] => none
    | _ => none

/-- `$` in MULTILINE mode: end of text or just before a newline. -/
def dollarAt : List Char → Bool
  | [] => true
  | c :: _ => c = '\n'

/-- Greedy-with-backtracking tail of `^[A-Z][A-Z\s]+$`: try the run lengths
`k, k-1, …, 1` and keep the longest whose end satisfies `$`. -/
def greedyDollar (rest : List Char) : Nat → Option Nat
  | 0 => none
  | k + 1 => if dollarAt (rest.drop (k + 1)) then some (k + 1) else greedyDollar rest k

/-- Matcher for `[A-Z][A-Z\s]+$` at the current position: an uppercase
letter, then one or more uppercase-or-whitespace characters, ending at a
`$` position.  Returns the match length minus one. -/
def matchAllCaps (l : List Char) : Option Nat :=
  match l with
  | [] => none
  | c :: rest =>
      if isUpperAZ c then
        let run := rest.takeWhile (fun d => isUpperAZ d ∨ isPyWs d)
        greedyDollar rest run.length
      else none

/-- Matcher for `\s*[•\-\*]\s+` (after `^`): optional whitespace, a bullet
character, mandatory whitespace.  Returns the match length minus one. -/
def matchBullet (l : List Char) : Option Nat :=
  let ws1 := l.takeWhile isPyWs
  match l.drop ws1.length with
  | c :: afterBullet =>
      if c = '•' ∨ c = '-' ∨ c = '*' then
        let ws2 := afterBullet.takeWhile isPyWs
        if ws2.isEmpty then none else some (ws1.length + ws2.length)
      else none
  | [] => none

/-- Matcher for `\s*\d+\.\s+` (after `^`): optional whitespace, digits, a
dot, mandatory whitespace.  Returns the match length minus one. -/
def matchNumBullet (l : List Char) : Option Nat :=
  let ws1 := l.takeWhile isPyWs
  let afterWs := l.drop ws1.length
  let ds := afterWs.takeWhile isDigit09
  if ds.isEmpty then none
  else
    match afterWs.drop ds.length with
    | '.' :: afterDot =>
        let ws2 := afterDot.takeWhile isPyWs
        if ws2.isEmpty then none
        else some (ws1.length + ds.length + ws2.length + 1)
    | _ => none

/-- Python `text.count(sub)` for a non-empty literal (non-overlapping
occurrences); the first argument counts characters of a current match still
to skip. -/
def countSubstrGo (pat : List Char) : Nat → List Char → Nat
  | _, [] => 0
  | 0, c :: rest =>
      if ¬pat.isEmpty ∧ pat.isPrefixOf (c :: rest) then
        1 + countSubstrGo pat (pat.length - 1) rest
      else countSubstrGo pat 0 rest
  | k + 1, _ :: rest => countSubstrGo pat k rest

/-- `text.count(sub)`. -/
def countSubstr (pat text : List Char) : Nat := countSubstrGo pat 0 text

namespace MetadataExtractor

/-- The `document_structure` dict computed by
`_extract_document_structure`. -/
structure DocumentStructure where
  estimated_sections : Nat
  estimated_tables : Nat
  bullet_points : Nat
  estimated_reading_time_minutes : Nat
  complexity_score : ℚ
deriving DecidableEq, Repr

/-- Python `round(x, 1)` modelled by exact rational rounding to tenths. -/
def roundTenth (q : ℚ) : ℚ := (round (q * 10) : ℚ) / 10

/-- `MetadataExtractor._extract_document_structure`: heading counts over the
three `MULTILINE` patterns, a table heuristic capped at 50, bullet counts,
reading time `max(1, word_count // 200)`, and a complexity score capped at
10 then rounded to one decimal. -/
def extractDocumentStructure (text : List Char) : DocumentStructure :=
  let sections :=
    countPattern (matchDotSection isDigit09) text
      + countPattern (matchDotSection isRoman) text
      + countPattern matchAllCaps text
  let text_lower := text.map Char.toLower
  let table_score :=
    countSubstr "table".data text_lower + countSubstr "figure".data text_lower
      + countSubstr "|".data text_lower + countSubstr "\t".data text_lower
  let estimated_tables := min (table_score / 10) 50
  let bullet_points :=
    countPattern matchBullet text + countPattern matchNumBullet text
  let word_count := pyWordCount text
  let complexity : ℚ :=
    min 10 ((sections : ℚ) * (5/10) + (estimated_tables : ℚ) * (3/10)
      + (bullet_points : ℚ) * (1/10) + (word_count : ℚ) / 1000)
  { estimated_sections := sections
    estimated_tables := estimated_tables
    bullet_points := bullet_points
    estimated_reading_time_minutes := max 1 (word_count / 200)
    complexity_score := roundTenth complexity }

end MetadataExtractor

namespace ChatAgentWithTools

/-- The early-return branch of `_run_tools`: a last message exists but lacks
the `tool_calls` attribute or carries an empty tool-call list. -/
def runToolsSilentBranch (s : ChatState) : Bool :=
  match s.messages.getLast? with
  | none => false
  | some last =>
      match msgToolCalls last with
      | none => true
      | some tcs => tcs.isEmpty

end ChatAgentWithTools

namespace DeepResearchAgent

/-- A concrete collaborator assignment used to evaluate the workflow: the
document exists, the question-generation call raises, every other call
succeeds trivially. -/
def oraclesNoQuestions : Oracles :=
  { document := some { filename := "deck.pdf", page_count := some 10,
                       word_count := some 1000 }
    analysis := .parsed (.obj [])
    questions := .raised "boom"
    questionSearch := fun _ => .ok []
    topicSearch := .ok []
    outline := .parsed (.obj [])
    sectionContent := fun _ => .ok ""
    now := "2024-01-01T00:00:00" }

/-- A concrete collaborator assignment with the referenced document absent
and every later call succeeding. -/
def oraclesMissingDoc : Oracles :=
  { oraclesNoQuestions with
    document := none
    questions := .parsedList ["q1"] }

/-- A concrete initial research state. -/
def initialStateEx : ResearchState :=
  { document_id := "doc-1", topic := "Key Risks", research_query := "Key Risks" }

end DeepResearchAgent

namespace VectorSearchTool

/-- A 101-character chunk used to exercise the deduplication. -/
def chunkA : Chunk :=
  { chunk_id := "c1", content := List.replicate 100 'x' ++ ['y'],
    similarity_score := 9/10, page_number := some 1, chunk_index := some 0 }

/-- A chunk agreeing with `chunkA` on its first 100 characters but differing
after character 100 (and on its page number). -/
def chunkB : Chunk :=
  { chunk_id := "c2", content := List.replicate 100 'x' ++ ['z'],
    similarity_score := 8/10, page_number := some 2, chunk_index := some 1 }

end VectorSearchTool

/-! ## Theorems -/

section DedupLemmas

open VectorSearchTool

/-- Count of retained chunks with a given 100-character prefix: none if the
prefix was already seen, exactly one if any input chunk carries it. -/
theorem dedupChunks_countP (p : List Char) :
    ∀ (chunks : List Chunk) (seen : List (List Char)),
      (dedupChunks seen chunks).countP (fun c => decide (contentPreview c = p))
        = if p ∈ seen then 0
          else if chunks.any (fun c => decide (contentPreview c = p)) then 1 else 0 := by
  intro chunks
  induction chunks with
  | nil => intro seen; simp [dedupChunks]
  | cons c rest ih =>
      intro seen
      by_cases hc : contentPreview c ∈ seen
      · rw [dedupChunks, if_pos hc, ih]
        by_cases hp : p ∈ seen
        · simp [hp]
        · have hne : ¬(contentPreview c = p) := fun h => hp (h ▸ hc)
          simp [hp, List.any_cons, hne]
      · rw [dedupChunks, if_neg hc]
        rw [List.countP_cons, ih]
        by_cases hcp : contentPreview c = p
        · have hp : p ∉ seen := fun h => hc (hcp ▸ h)
          have h1 : p ∈ contentPreview c :: seen := by simp [hcp]
          simp [h1, hp, hcp, List.any_cons]
        · have h2 : (p ∈ contentPreview c :: seen) ↔ p ∈ seen := by
            simp [List.mem_cons]
            intro he
            exact absurd he.symm hcp
          simp [List.any_cons, hcp, h2]

/-- As long as a prefix has not been seen, deduplication keeps the first
input chunk carrying it: `find?` agrees on the retained and the input
lists. -/
theorem dedupChunks_find? (p : List Char) :
    ∀ (chunks : List Chunk) (seen : List (List Char)), p ∉ seen →
      (dedupChunks seen chunks).find? (fun c => decide (contentPreview c = p))
        = chunks.find? (fun c => decide (contentPreview c = p)) := by
  intro chunks
  induction chunks with
  | nil => intro seen _; simp [dedupChunks]
  | cons c rest ih =>
      intro seen hp
      by_cases hc : contentPreview c ∈ seen
      · have hne : ¬(contentPreview c = p) := fun h => hp (h ▸ hc)
        rw [dedupChunks, if_pos hc, ih seen hp, List.find?_cons_of_neg]
        simpa using hne
      · rw [dedupChunks, if_neg hc]
        by_cases hcp : contentPreview c = p
        · rw [List.find?_cons_of_pos, List.find?_cons_of_pos] <;> simp [hcp]
        · have hp2 : p ∉ contentPreview c :: seen := by
            simp [List.mem_cons, hp]
            intro he
            exact absurd he.symm hcp
          rw [List.find?_cons_of_neg, List.find?_cons_of_neg, ih _ hp2] <;> simp [hcp]

end DedupLemmas

/-- **C2.** For every configuration, per-source token cap and behaviour of
the underlying similarity-search collaborator, `VectorSearchTool.search`
never raises (it is a total function of the collaborator's outcome); when
the collaborator fails with any exception `e`, it returns the well-formed
empty result — empty chunk list, empty `formatted_results`, empty
`formatted_sources` — plus an `error` field carrying `e`; on success the
`error` field is absent. -/
theorem vectorSearchTool_search_never_raises :
    (∀ (cfg : VectorSearchTool.Config) (e : String) (cap : Option Nat),
      VectorSearchTool.search cfg (.error e) cap =
        { similar_chunks := [], formatted_results := [],
          formatted_sources := [], error := some e }) ∧
    (∀ (cfg : VectorSearchTool.Config) (chunks : List Chunk) (cap : Option Nat),
      (VectorSearchTool.search cfg (.ok chunks) cap).error = none) :=
  ⟨fun _ _ _ => rfl, fun _ _ _ => rfl⟩

/-- **C4.** In `VectorSearchTool._deduplicate_and_format_sources`, any two
chunks whose contents agree on their first 100 characters contribute exactly
one formatted entry: for an input list containing chunks `a` and `b` (in
that order) with equal 100-character prefixes, exactly one retained chunk
carries that prefix, it is the first input chunk carrying it, and
`formatted_results` is exactly the retained chunks formatted and joined. -/
theorem vectorSearchTool_dedup_first100
    (cfg : VectorSearchTool.Config) (cap : Nat)
    (pre mid post : List Chunk) (a b : Chunk)
    (hab : VectorSearchTool.contentPreview a = VectorSearchTool.contentPreview b) :
    ((VectorSearchTool.dedupChunks [] (pre ++ a :: mid ++ b :: post)).countP
        (fun c => decide (VectorSearchTool.contentPreview c
          = VectorSearchTool.contentPreview a)) = 1) ∧
    ((VectorSearchTool.dedupChunks [] (pre ++ a :: mid ++ b :: post)).countP
        (fun c => decide (VectorSearchTool.contentPreview c
          = VectorSearchTool.contentPreview b)) = 1) ∧
    ((VectorSearchTool.dedupChunks [] (pre ++ a :: mid ++ b :: post)).find?
        (fun c => decide (VectorSearchTool.contentPreview c
          = VectorSearchTool.contentPreview a))
      = (pre ++ a :: mid ++ b :: post).find?
        (fun c => decide (VectorSearchTool.contentPreview c
          = VectorSearchTool.contentPreview a))) ∧
    (VectorSearchTool.deduplicateAndFormatSources cfg (pre ++ a :: mid ++ b :: post) cap
      = List.intercalate "\n---\n".data
          ((VectorSearchTool.dedupChunks [] (pre ++ a :: mid ++ b :: post)).map
            (VectorSearchTool.formatChunk cfg cap))) := by
  have hmem : (pre ++ a :: mid ++ b :: post).any
      (fun c => decide (VectorSearchTool.contentPreview c
        = VectorSearchTool.contentPreview a)) = true := by
    simp [List.any_append, List.any_cons]
  refine ⟨?_, ?_, ?_, rfl⟩
  · rw [dedupChunks_countP]
    simp [hmem]
  · rw [dedupChunks_countP]
    rw [← hab]
    simp [hmem]
  · exact dedupChunks_find? _ _ [] (by simp)

/-- Witness for **C4**: two crafted chunks sharing their first 100
characters and differing only after character 100 (and in page number)
collapse to one formatted entry, the first of the two. -/
theorem vectorSearchTool_dedup_first100_witness :
    VectorSearchTool.contentPreview VectorSearchTool.chunkA
      = VectorSearchTool.contentPreview VectorSearchTool.chunkB ∧
    ((VectorSearchTool.dedupChunks [] [VectorSearchTool.chunkA, VectorSearchTool.chunkB]).countP
        (fun c => decide (VectorSearchTool.contentPreview c
          = VectorSearchTool.contentPreview VectorSearchTool.chunkA)) = 1) := by
  have h := vectorSearchTool_dedup_first100 {} 1000 [] [] []
    VectorSearchTool.chunkA VectorSearchTool.chunkB (by decide)
  exact ⟨by decide, h.1⟩

/-- Unrolling of the retry recursion in
`EmbeddingService.search_similar_chunks`: the retried call runs with
threshold 0.3, whose own retry guard `0.3 < 0.3` fails, so at most one retry
happens. -/
theorem searchSimilarChunksWithRounds_eq (o : EmbeddingService.SearchCollab)
    (k : Nat) (t : ℚ) :
    EmbeddingService.searchSimilarChunksWithRounds o k t =
      if EmbeddingService.processRound o k t = [] ∧ (3 : ℚ)/10 < t then
        (EmbeddingService.processRound o (max k 12) (3/10), 2)
      else (EmbeddingService.processRound o k t, 1) := by
  have inner : EmbeddingService.searchSimilarChunksWithRounds o (max k 12) (3/10)
      = (EmbeddingService.processRound o (max k 12) (3/10), 1) := by
    rw [EmbeddingService.searchSimilarChunksWithRounds]
    split
    · next h2 => exact absurd h2.2 (lt_irrefl _)
    · rfl
  rw [EmbeddingService.searchSimilarChunksWithRounds]
  split
  · rw [inner]
  · rfl

/-- **C7.** `search_similar_chunks` performs at most two underlying search
rounds: when a round with threshold above 0.3 yields zero accepted results
it retries exactly once with the threshold lowered to 0.3 and `top_k`
raised to `max(top_k, 12) ≥ 12`; a round count of 2 happens exactly in that
case, and with a threshold of 0.3 or lower no retry occurs (the round count
is then 1). -/
theorem embeddingService_search_retry_once (o : EmbeddingService.SearchCollab)
    (k : Nat) (t : ℚ) :
    (EmbeddingService.searchSimilarChunks o k t =
      if EmbeddingService.processRound o k t = [] ∧ (3 : ℚ)/10 < t then
        EmbeddingService.processRound o (max k 12) (3/10)
      else EmbeddingService.processRound o k t) ∧
    EmbeddingService.searchRounds o k t ≤ 2 ∧
    (EmbeddingService.searchRounds o k t = 2 ↔
      (EmbeddingService.processRound o k t = [] ∧ (3 : ℚ)/10 < t)) ∧
    (EmbeddingService.searchRounds o k t = 1 ∨
      EmbeddingService.searchRounds o k t = 2) ∧
    12 ≤ max k 12 := by
  have key := searchSimilarChunksWithRounds_eq o k t
  refine ⟨?_, ?_, ?_, ?_, le_max_right _ _⟩
  · rw [EmbeddingService.searchSimilarChunks, key]
    split <;> rfl
  · rw [EmbeddingService.searchRounds, key]
    split <;> simp
  · rw [EmbeddingService.searchRounds, key]
    split
    · next h => simp [h]
    · next h => simp [h]
  · rw [EmbeddingService.searchRounds, key]
    split <;> simp

/-- **C9 (amended).** For every document text, the structural statistics of
`_extract_document_structure` satisfy: the approximate table count is at
most 50, the complexity score is at most 10, and the estimated reading time
is `max(1, word_count // 200)` minutes — not `word_count / 200`, which the
code replaces by 1 whenever it is 0. -/
theorem metadataExtractor_document_structure_bounds (text : List Char) :
    (MetadataExtractor.extractDocumentStructure text).estimated_tables ≤ 50 ∧
    (MetadataExtractor.extractDocumentStructure text).complexity_score ≤ 10 ∧
    (MetadataExtractor.extractDocumentStructure text).estimated_reading_time_minutes
      = max 1 (pyWordCount text / 200) := by
  refine ⟨Nat.min_le_right _ _, ?_, rfl⟩
  show MetadataExtractor.roundTenth (min 10 _) ≤ 10
  set x : ℚ := _
  have hx : min 10 x ≤ 10 := min_le_left _ _
  rw [MetadataExtractor.roundTenth, round_eq]
  have hfloor : ⌊min 10 x * 10 + 1 / 2⌋ ≤ 100 := by
    have : min 10 x * 10 + 1 / 2 ≤ (100 : ℚ) + 1 / 2 := by linarith
    calc ⌊min 10 x * 10 + 1 / 2⌋ ≤ ⌊(100 : ℚ) + 1 / 2⌋ := Int.floor_le_floor this
    _ = 100 := by norm_num [Int.floor_eq_iff]
  rw [div_le_iff₀ (by norm_num : (0 : ℚ) < 10)]
  calc (⌊min 10 x * 10 + 1 / 2⌋ : ℚ) ≤ (100 : ℚ) := by exact_mod_cast hfloor
  _ = 10 * 10 := by norm_num

/-- Counterexample for **C9** as stated: on the one-word text `"hello"` the
computed reading time is 1 minute while `word_count / 200 = 0` (the code
takes `max(1, ·)`), so the reading time does not equal `word_count / 200`. -/
theorem metadataExtractor_reading_time_counterexample :
    (MetadataExtractor.extractDocumentStructure "hello".data).estimated_reading_time_minutes = 1 ∧
    pyWordCount "hello".data / 200 = 0 ∧
    ¬((MetadataExtractor.extractDocumentStructure "hello".data).estimated_reading_time_minutes
        = pyWordCount "hello".data / 200) := by
  refine ⟨rfl, rfl, by decide⟩

/-- Setting a key in a dict makes it the value found for that key. -/
theorem jLookup_dictSet_self : ∀ (d : List (String × JVal)) (k : String) (v : JVal),
    jLookup (dictSet d k v) k = some v := by
  intro d k v
  induction d with
  | nil => simp [dictSet, jLookup]
  | cons p rest ih =>
      by_cases hp : p.1 = k
      · simp [dictSet, jLookup, List.find?_cons, hp]
      · rw [dictSet]
        rw [List.find?_cons_of_neg _ (by simpa using hp)]
        by_cases hr : ((rest.find? fun q => q.1 = k).isSome)
        · rw [if_pos hr]
          rw [List.map_cons]
          have hfp : ¬((if p.1 = k then (k, v) else p).1 = k) := by
            simp [hp]
          rw [jLookup, List.find?_cons_of_neg _ (by simpa using hfp)]
          have := ih
          rw [dictSet, if_pos hr] at this
          exact this
        · rw [if_neg hr]
          rw [jLookup, List.cons_append, List.find?_cons_of_neg _ (by simpa using hp)]
          have := ih
          rw [dictSet, if_neg hr] at this
          exact this

/-- **C10.** The research quality score always lies in `[5, 10]`: it starts
from a base of 5.0, only adds non-negative bonuses, and is clamped above at
10.0; `_finalize_research` records exactly this score under
`research_quality_score` in the content outline. -/
theorem deepResearch_quality_score_in_range (o : DeepResearchAgent.Oracles)
    (s : DeepResearchAgent.ResearchState) :
    5 ≤ DeepResearchAgent.calculateQualityScore s ∧
    DeepResearchAgent.calculateQualityScore s ≤ 10 ∧
    jLookup (DeepResearchAgent.finalizeResearch o s).content_outline
        "research_quality_score"
      = some (.num (DeepResearchAgent.calculateQualityScore s)) := by
  refine ⟨?_, ?_, ?_⟩
  · simp only [DeepResearchAgent.calculateQualityScore]
    split_ifs <;> norm_num [le_min_iff]
  · exact min_le_left _ _
  · exact jLookup_dictSet_self _ _ _

/-- **C5.** `_should_use_tools` routes to `TOOLS` iff the state's message
list is non-empty and its latest message has a non-empty `tool_calls`
attribute; in every other case (no messages, attribute absent, or empty
tool-call list) it routes to `SAVE`, and these are the only two outcomes. -/
theorem chatTools_should_use_tools_routing (s : ChatAgentWithTools.ChatState) :
    (ChatAgentWithTools.shouldUseTools s = "tools" ↔
      ∃ m tcs, s.messages.getLast? = some m ∧
        ChatAgentWithTools.msgToolCalls m = some tcs ∧ tcs ≠ []) ∧
    (ChatAgentWithTools.shouldUseTools s = "tools" ∨
      ChatAgentWithTools.shouldUseTools s = "save") := by
  rw [ChatAgentWithTools.shouldUseTools]
  rcases h : s.messages.getLast? with - | m
  · simp
  · rcases hm : ChatAgentWithTools.msgToolCalls m with - | tcs
    · simp [hm]
    · by_cases he : tcs.isEmpty
      · have : tcs = [] := List.isEmpty_iff.mp he
        subst this
        simp [hm, he]
      · have hne : tcs ≠ [] := fun hnil => he (by simp [hnil])
        simp [hm, he, hne]

/-- **C3.** The financial-facts and investment-data extractions are total in
shape: for every generation outcome the returned dict carries the full fixed
schema (every required key present); when the generation collaborator throws
(or parses to nothing) the result is exactly the literal empty structure, in
which every numeric field is null, every currency field defaults to `"USD"`,
and every list-valued field is the empty list rather than null. -/
theorem metadataExtractor_total_schema :
    (∀ g : MetadataExtractor.GenOutcome MetadataExtractor.FinancialFacts,
      MetadataExtractor.hasFinancialSchema
        (MetadataExtractor.extractFinancialFactsCore g) = true) ∧
    (∀ e, MetadataExtractor.extractFinancialFactsCore (.raised e)
      = MetadataExtractor.emptyFinancialFactsDict) ∧
    (MetadataExtractor.extractFinancialFactsCore .parsedNone
      = MetadataExtractor.emptyFinancialFactsDict) ∧
    MetadataExtractor.financialDefaultsOk
      MetadataExtractor.emptyFinancialFactsDict = true ∧
    (∀ g : MetadataExtractor.GenOutcome MetadataExtractor.InvestmentData,
      MetadataExtractor.hasInvestmentSchema
        (MetadataExtractor.extractInvestmentDataCore g) = true) ∧
    (∀ e, MetadataExtractor.extractInvestmentDataCore (.raised e)
      = MetadataExtractor.emptyInvestmentDataDict) ∧
    (MetadataExtractor.extractInvestmentDataCore .parsedNone
      = MetadataExtractor.emptyInvestmentDataDict) ∧
    MetadataExtractor.investmentDefaultsOk
      MetadataExtractor.emptyInvestmentDataDict = true := by
  refine ⟨fun g => ?_, fun _ => rfl, rfl, by decide, fun g => ?_, fun _ => rfl, rfl, by decide⟩
  · cases g <;> rfl
  · cases g <;> rfl

/-- The per-question retrieval loop performs exactly one
`search_similar_chunks` call per question. -/
theorem retrieveQuestionLoop_calls (o : DeepResearchAgent.Oracles) :
    ∀ (ps : List (Nat × String)) (info : List DeepResearchAgent.InfoEntry)
      (srcs : List DeepResearchAgent.SourceEntry) (calls : Nat),
      (DeepResearchAgent.retrieveQuestionLoop o ps info srcs calls).2.2
        = calls + ps.length := by
  intro ps
  induction ps with
  | nil => intro info srcs calls; rfl
  | cons p rest ih =>
      intro info srcs calls
      rw [DeepResearchAgent.retrieveQuestionLoop]
      rcases p with ⟨i, q⟩
      cases o.questionSearch i with
      | error e => rw [ih]; simp; omega
      | ok chunks => rw [ih]; simp; omega

/-- **C1 (amended).** One run of the compiled research workflow executes the
fixed linear pipeline: the retrieval node runs exactly once and the finalize
node exactly once, there is no reflect node and no loop-count routing, and
the underlying `search_similar_chunks` primitive is invoked exactly once per
generated research question plus once for the general topic search. -/
theorem deepResearch_linear_pipeline (o : DeepResearchAgent.Oracles)
    (s0 : DeepResearchAgent.ResearchState) :
    (DeepResearchAgent.runResearchWorkflow o s0).2.2
      = (DeepResearchAgent.generateResearchQuestions o
          (DeepResearchAgent.analyzeTopic o s0)).research_questions.length + 1 ∧
    (DeepResearchAgent.runResearchWorkflow o s0).2.1 =
      DeepResearchAgent.researchStepNames ∧
    (DeepResearchAgent.runResearchWorkflow o s0).2.1.count "retrieve_information" = 1 ∧
    (DeepResearchAgent.runResearchWorkflow o s0).2.1.count "finalize_research" = 1 ∧
    "reflect" ∉ (DeepResearchAgent.runResearchWorkflow o s0).2.1 := by
  refine ⟨?_, rfl, ?_, ?_, ?_⟩
  · show (DeepResearchAgent.retrieveInformation o _).2 = _
    rw [DeepResearchAgent.retrieveInformation]
    cases h : o.topicSearch <;>
      simp [h, retrieveQuestionLoop_calls, List.enum_length]
  · show DeepResearchAgent.researchStepNames.count "retrieve_information" = 1
    decide
  · show DeepResearchAgent.researchStepNames.count "finalize_research" = 1
    decide
  · show "reflect" ∉ DeepResearchAgent.researchStepNames
    decide

/-- Counterexample for **C1** as stated: a concrete run (document present,
question generation raising, every search succeeding) performs exactly one
retrieval invocation, not three — there is no reflect/loop routing to force
three searches — while the finalize node still runs exactly once. -/
theorem deepResearch_not_three_searches :
    (DeepResearchAgent.runResearchWorkflow DeepResearchAgent.oraclesNoQuestions
        DeepResearchAgent.initialStateEx).2.2 = 1 ∧
    ¬((DeepResearchAgent.runResearchWorkflow DeepResearchAgent.oraclesNoQuestions
        DeepResearchAgent.initialStateEx).2.2 = 3) ∧
    (DeepResearchAgent.runResearchWorkflow DeepResearchAgent.oraclesNoQuestions
        DeepResearchAgent.initialStateEx).2.1.count "finalize_research" = 1 := by
  refine ⟨rfl, by decide, by decide⟩

/-- Question generation only ever appends to the error list. -/
theorem generateResearchQuestions_errors (o : DeepResearchAgent.Oracles)
    (s : DeepResearchAgent.ResearchState) :
    ∃ l, (DeepResearchAgent.generateResearchQuestions o s).errors = s.errors ++ l := by
  rcases h : o.questions with msg | qs | r | raw
  · exact ⟨["Question generation error: " ++ msg],
      by rw [DeepResearchAgent.generateResearchQuestions, h]⟩
  all_goals exact ⟨[], by rw [DeepResearchAgent.generateResearchQuestions, h]; simp⟩

/-- The retrieval step never touches the error list (its per-search failures
are logged and skipped). -/
theorem retrieveInformation_errors (o : DeepResearchAgent.Oracles)
    (s : DeepResearchAgent.ResearchState) :
    (DeepResearchAgent.retrieveInformation o s).1.errors = s.errors := by
  rw [DeepResearchAgent.retrieveInformation]
  cases o.topicSearch <;> rfl

/-- Outline creation only ever appends to the error list. -/
theorem createContentOutline_errors (o : DeepResearchAgent.Oracles)
    (s : DeepResearchAgent.ResearchState) :
    ∃ l, (DeepResearchAgent.createContentOutline o s).errors = s.errors ++ l := by
  rcases h : o.outline with msg | raw | v
  · exact ⟨["Outline creation error: " ++ msg],
      by rw [DeepResearchAgent.createContentOutline, h]⟩
  all_goals exact ⟨[], by rw [DeepResearchAgent.createContentOutline, h]; simp⟩

/-- Detailed-content generation never touches the error list (per-section
failures become error entries in the section dict). -/
theorem generateDetailedContent_errors (o : DeepResearchAgent.Oracles)
    (s : DeepResearchAgent.ResearchState) :
    (DeepResearchAgent.generateDetailedContent o s).errors = s.errors := rfl

/-- Finalization never touches the error list. -/
theorem finalizeResearch_errors (o : DeepResearchAgent.Oracles)
    (s : DeepResearchAgent.ResearchState) :
    (DeepResearchAgent.finalizeResearch o s).errors = s.errors := rfl

/-- A full run only ever appends to the error list produced by the initial
`analyze_topic` step. -/
theorem runResearch_errors_extension (o : DeepResearchAgent.Oracles)
    (s0 : DeepResearchAgent.ResearchState) :
    ∃ l, (DeepResearchAgent.runResearchWorkflow o s0).1.errors
      = (DeepResearchAgent.analyzeTopic o s0).errors ++ l := by
  obtain ⟨l2, h2⟩ := generateResearchQuestions_errors o
    (DeepResearchAgent.analyzeTopic o s0)
  obtain ⟨l4, h4⟩ := createContentOutline_errors o
    (DeepResearchAgent.retrieveInformation o
      (DeepResearchAgent.generateResearchQuestions o
        (DeepResearchAgent.analyzeTopic o s0))).1
  refine ⟨l2 ++ l4, ?_⟩
  show (DeepResearchAgent.finalizeResearch o _).errors = _
  rw [finalizeResearch_errors, generateDetailedContent_errors, h4,
      retrieveInformation_errors, h2, List.append_assoc]

/-- **C8 (amended).** When the referenced document is absent at the initial
load step, the run is not aborted — the remaining steps still execute — but
the failure is surfaced: the load step records `Document {id} not found`,
the caller-visible status is `failed`, and the research task record is
marked `failed`. -/
theorem deepResearch_missing_document_fails (o : DeepResearchAgent.Oracles)
    (task_id document_id topic : String) (cq : Option String)
    (hdoc : o.document = none) :
    (DeepResearchAgent.conductResearch o task_id document_id topic cq).1.status
      = "failed" ∧
    (DeepResearchAgent.conductResearch o task_id document_id topic cq).2.status
      = "failed" ∧
    ("Document " ++ document_id ++ " not found")
      ∈ (DeepResearchAgent.conductResearch o task_id document_id topic cq).1.errors := by
  have hana : ∀ s : DeepResearchAgent.ResearchState,
      (DeepResearchAgent.analyzeTopic o s).errors
        = s.errors ++ ["Document " ++ s.document_id ++ " not found"] := by
    intro s
    rw [DeepResearchAgent.analyzeTopic, hdoc]
  set S : DeepResearchAgent.ResearchState :=
    { document_id := document_id, topic := topic,
      research_query :=
        match cq with
        | some q => if q = "" then topic else q
        | none => topic,
      task_id := some task_id } with hS
  obtain ⟨l, hl⟩ := runResearch_errors_extension o S
  have hmem : ("Document " ++ document_id ++ " not found")
      ∈ (DeepResearchAgent.runResearchWorkflow o S).1.errors := by
    rw [hl, hana]
    simp [hS]
  have hne : (DeepResearchAgent.runResearchWorkflow o S).1.errors ≠ [] := by
    rw [hl, hana]
    simp [hS]
  refine ⟨?_, ?_, hmem⟩
  · show (if (DeepResearchAgent.runResearchWorkflow o S).1.errors = []
        then "completed" else "failed") = "failed"
    rw [if_neg hne]
  · show (if (DeepResearchAgent.runResearchWorkflow o S).1.errors = []
        then "completed" else "failed") = "failed"
    rw [if_neg hne]

/-- Witness for **C8 (amended)**: a concrete run with the document absent
ends with both the result and the task record marked `failed`. -/
theorem deepResearch_missing_document_fails_witness :
    DeepResearchAgent.oraclesMissingDoc.document = none ∧
    (DeepResearchAgent.conductResearch DeepResearchAgent.oraclesMissingDoc
        "task-1" "doc-1" "Key Risks" none).1.status = "failed" ∧
    (DeepResearchAgent.conductResearch DeepResearchAgent.oraclesMissingDoc
        "task-1" "doc-1" "Key Risks" none).2.status = "failed" := by
  have h := deepResearch_missing_document_fails DeepResearchAgent.oraclesMissingDoc
    "task-1" "doc-1" "Key Risks" none rfl
  exact ⟨rfl, h.1, h.2.1⟩

/-- Counterexample for **C8** as stated: with the document absent, the run
is not aborted — the later steps still execute (question generation stores
its questions and the finalize step sets `current_step = "completed"`) even
though the outcome is reported as `failed`. -/
theorem deepResearch_missing_document_continues :
    (DeepResearchAgent.runResearchWorkflow DeepResearchAgent.oraclesMissingDoc
        DeepResearchAgent.initialStateEx).1.current_step = "completed" ∧
    (DeepResearchAgent.runResearchWorkflow DeepResearchAgent.oraclesMissingDoc
        DeepResearchAgent.initialStateEx).1.research_questions = ["q1"] ∧
    (DeepResearchAgent.conductResearch DeepResearchAgent.oraclesMissingDoc
        "task-1" "doc-1" "Key Risks" none).1.status = "failed" :=
  ⟨rfl, rfl, rfl⟩

/-- The tool-execution loop either completes (setting the step tag) or
appends exactly one error message. -/
theorem runToolsLoop_observable (f : Nat → Except String (String × List Chunk)) :
    ∀ (ps : List (Nat × ChatAgentWithTools.ToolCall))
      (s : ChatAgentWithTools.ChatState),
      (ChatAgentWithTools.runToolsLoop f ps s).current_step = "tools_complete" ∨
        ∃ m, (ChatAgentWithTools.runToolsLoop f ps s).errors = s.errors ++ [m] := by
  intro ps
  induction ps with
  | nil => intro s; exact Or.inl rfl
  | cons p rest ih =>
      intro s
      rcases p with ⟨i, tc⟩
      rw [ChatAgentWithTools.runToolsLoop]
      by_cases hname : tc.name = "search_document"
      · rw [if_pos hname]
        cases f i with
        | error e => exact Or.inr ⟨_, rfl⟩
        | ok r =>
            rcases r with ⟨content, srcs⟩
            rcases ih ({ s with
                messages := s.messages ++ [.tool content tc.id],
                sources_used := s.sources_used ++ srcs }) with h | ⟨m, hm⟩
            · exact Or.inl h
            · exact Or.inr ⟨m, hm⟩
      · rw [if_neg hname]
        exact ih s

/-- **C6 (amended).** Every step function of the research, chat-with-tools
and chat-RAG workflows is observable — it either sets `current_step` to its
step-specific completion tag or appends exactly one message to `errors` —
with one exception: `_run_tools`, which returns its input state entirely
unchanged when the last message lacks (or has an empty) `tool_calls`
attribute, a case the workflow's routing never feeds it. -/
theorem workflow_steps_observable :
    (∀ (o : DeepResearchAgent.Oracles) (s : DeepResearchAgent.ResearchState),
      (DeepResearchAgent.analyzeTopic o s).current_step = "analyze_topic_complete" ∨
        ∃ m, (DeepResearchAgent.analyzeTopic o s).errors = s.errors ++ [m]) ∧
    (∀ (o : DeepResearchAgent.Oracles) (s : DeepResearchAgent.ResearchState),
      (DeepResearchAgent.generateResearchQuestions o s).current_step
          = "questions_generated" ∨
        ∃ m, (DeepResearchAgent.generateResearchQuestions o s).errors
          = s.errors ++ [m]) ∧
    (∀ (o : DeepResearchAgent.Oracles) (s : DeepResearchAgent.ResearchState),
      (DeepResearchAgent.retrieveInformation o s).1.current_step
          = "information_retrieved" ∨
        ∃ m, (DeepResearchAgent.retrieveInformation o s).1.errors
          = s.errors ++ [m]) ∧
    (∀ (o : DeepResearchAgent.Oracles) (s : DeepResearchAgent.ResearchState),
      (DeepResearchAgent.createContentOutline o s).current_step = "outline_created" ∨
        ∃ m, (DeepResearchAgent.createContentOutline o s).errors = s.errors ++ [m]) ∧
    (∀ (o : DeepResearchAgent.Oracles) (s : DeepResearchAgent.ResearchState),
      (DeepResearchAgent.generateDetailedContent o s).current_step
          = "content_generated" ∨
        ∃ m, (DeepResearchAgent.generateDetailedContent o s).errors
          = s.errors ++ [m]) ∧
    (∀ (o : DeepResearchAgent.Oracles) (s : DeepResearchAgent.ResearchState),
      (DeepResearchAgent.finalizeResearch o s).current_step = "completed" ∨
        ∃ m, (DeepResearchAgent.finalizeResearch o s).errors = s.errors ++ [m]) ∧
    (∀ (recent : Except String (List (String × String)))
        (s : ChatAgentWithTools.ChatState),
      (ChatAgentWithTools.loadChatContext recent s).current_step = "context_loaded" ∨
        ∃ m, (ChatAgentWithTools.loadChatContext recent s).errors = s.errors ++ [m]) ∧
    (∀ (response : Except String (String × List ChatAgentWithTools.ToolCall))
        (s : ChatAgentWithTools.ChatState),
      (ChatAgentWithTools.runAgent response s).current_step = "agent_complete" ∨
        ∃ m, (ChatAgentWithTools.runAgent response s).errors = s.errors ++ [m]) ∧
    (∀ (f : Nat → Except String (String × List Chunk))
        (s : ChatAgentWithTools.ChatState),
      (ChatAgentWithTools.runToolsSilentBranch s = true ∧
        ChatAgentWithTools.runTools f s = s) ∨
      (ChatAgentWithTools.runToolsSilentBranch s = false ∧
        ((ChatAgentWithTools.runTools f s).current_step = "tools_complete" ∨
          ∃ m, (ChatAgentWithTools.runTools f s).errors = s.errors ++ [m]))) ∧
    (∀ (dbWrite : Except String Unit) (s : ChatAgentWithTools.ChatState),
      (ChatAgentWithTools.saveChatInteraction dbWrite s).current_step
          = "interaction_saved" ∨
        ∃ m, (ChatAgentWithTools.saveChatInteraction dbWrite s).errors
          = s.errors ++ [m]) ∧
    (∀ (recent : Except String (List (String × String))) (s : ChatRagAgent.RagState),
      (ChatRagAgent.loadChatContext recent s).current_step = "context_loaded" ∨
        ∃ m, (ChatRagAgent.loadChatContext recent s).errors = s.errors ++ [m]) ∧
    (∀ (search : Except String (List Chunk)) (facts : Option (List Char))
        (s : ChatRagAgent.RagState),
      (ChatRagAgent.retrieveRelevantInformation search facts s).current_step
          = "information_retrieved" ∨
        ∃ m, (ChatRagAgent.retrieveRelevantInformation search facts s).errors
          = s.errors ++ [m]) ∧
    (∀ (llm : Except String String) (s : ChatRagAgent.RagState),
      (ChatRagAgent.generateResponse llm s).current_step = "response_generated" ∨
        ∃ m, (ChatRagAgent.generateResponse llm s).errors = s.errors ++ [m]) ∧
    (∀ (dbWrite : Except String Unit) (s : ChatRagAgent.RagState),
      (ChatRagAgent.saveChatInteraction dbWrite s).current_step
          = "interaction_saved" ∨
        ∃ m, (ChatRagAgent.saveChatInteraction dbWrite s).errors
          = s.errors ++ [m]) := by
  refine ⟨?_, ?_, ?_, ?_, ?_, ?_, ?_, ?_, ?_, ?_, ?_, ?_, ?_, ?_⟩
  · intro o s
    rcases hd : o.document with - | doc
    · simp only [DeepResearchAgent.analyzeTopic, hd]
      exact Or.inr ⟨_, by trivial⟩
    · simp only [DeepResearchAgent.analyzeTopic, hd]
      rcases ha : o.analysis with msg | raw | v <;> simp only [ha]
      · exact Or.inr ⟨_, by trivial⟩
      · exact Or.inl (by trivial)
      · exact Or.inl (by trivial)
  · intro o s
    rcases hq : o.questions with msg | qs | r | raw <;>
      simp only [DeepResearchAgent.generateResearchQuestions, hq]
    · exact Or.inr ⟨_, by trivial⟩
    · exact Or.inl (by trivial)
    · exact Or.inl (by trivial)
    · exact Or.inl (by trivial)
  · intro o s
    rcases ht : o.topicSearch with e | chunks <;>
      simp only [DeepResearchAgent.retrieveInformation, ht]
    · exact Or.inl (by trivial)
    · exact Or.inl (by trivial)
  · intro o s
    rcases ho : o.outline with msg | raw | v <;>
      simp only [DeepResearchAgent.createContentOutline, ho]
    · exact Or.inr ⟨_, by trivial⟩
    · exact Or.inl (by trivial)
    · exact Or.inl (by trivial)
  · intro o s
    exact Or.inl (by trivial)
  · intro o s
    exact Or.inl (by trivial)
  · intro recent s
    rcases hs : s.session_id with - | sid <;>
      simp only [ChatAgentWithTools.loadChatContext, hs]
    · exact Or.inl (by trivial)
    · cases recent with
      | error e => exact Or.inr ⟨_, by trivial⟩
      | ok msgs => exact Or.inl (by trivial)
  · intro response s
    cases response with
    | error e =>
        simp only [ChatAgentWithTools.runAgent]
        exact Or.inr ⟨_, by trivial⟩
    | ok r =>
        rcases r with ⟨content, tcs⟩
        simp only [ChatAgentWithTools.runAgent]
        exact Or.inl (by trivial)
  · intro f s
    rcases hl : s.messages.getLast? with - | last <;>
      simp only [ChatAgentWithTools.runTools,
        ChatAgentWithTools.runToolsSilentBranch, hl]
    · exact Or.inr ⟨by trivial, Or.inr ⟨_, by trivial⟩⟩
    · rcases hm : ChatAgentWithTools.msgToolCalls last with - | tcs <;>
        simp only [hm]
      · exact Or.inl ⟨by trivial, by trivial⟩
      · cases tcs with
        | nil => exact Or.inl ⟨by trivial, by trivial⟩
        | cons t ts =>
            refine Or.inr ⟨by simp, ?_⟩
            exact runToolsLoop_observable f ((t :: ts).enum) s
  · intro dbWrite s
    simp only [ChatAgentWithTools.saveChatInteraction]
    by_cases hc : s.session_id.isSome ∧ ¬s.messages.isEmpty
    · rw [if_pos hc]
      cases dbWrite with
      | error e => exact Or.inr ⟨_, by trivial⟩
      | ok u => exact Or.inl (by trivial)
    · rw [if_neg hc]
      exact Or.inl (by trivial)
  · intro recent s
    rcases hs : s.session_id with - | sid <;>
      simp only [ChatRagAgent.loadChatContext, hs]
    · exact Or.inl (by trivial)
    · cases recent with
      | error e => exact Or.inr ⟨_, by trivial⟩
      | ok msgs => exact Or.inl (by trivial)
  · intro search facts s
    cases search with
    | error e =>
        simp only [ChatRagAgent.retrieveRelevantInformation]
        exact Or.inl (by trivial)
    | ok chunks =>
        simp only [ChatRagAgent.retrieveRelevantInformation]
        exact Or.inl (by trivial)
  · intro llm s
    cases llm with
    | error e =>
        simp only [ChatRagAgent.generateResponse]
        exact Or.inr ⟨_, by trivial⟩
    | ok content =>
        simp only [ChatRagAgent.generateResponse]
        exact Or.inl (by trivial)
  · intro dbWrite s
    rcases hs : s.session_id with - | sid <;>
      simp only [ChatRagAgent.saveChatInteraction, hs]
    · exact Or.inl (by trivial)
    · cases dbWrite with
      | error e => exact Or.inr ⟨_, by trivial⟩
      | ok u => exact Or.inl (by trivial)

/-- Counterexample for **C6** as stated: `_run_tools`, applied to a state
whose last message is an assistant message without tool calls (the state
shape left by an agent turn that requested no tools), returns the state
with `current_step` and `errors` exactly as it found them — a silent
no-op. -/
theorem chatTools_run_tools_silent_noop :
    (ChatAgentWithTools.runTools (fun _ => .ok ("", []))
        { messages := [.ai "All done" []], session_id := some "sess-1",
          current_step := "agent_complete" }).current_step = "agent_complete" ∧
    (ChatAgentWithTools.runTools (fun _ => .ok ("", []))
        { messages := [.ai "All done" []], session_id := some "sess-1",
          current_step := "agent_complete" }).errors = [] ∧
    ChatAgentWithTools.runTools (fun _ => .ok ("", []))
        { messages := [.ai "All done" []], session_id := some "sess-1",
          current_step := "agent_complete" }
      = { messages := [.ai "All done" []], session_id := some "sess-1",
          current_step := "agent_complete" } :=
  ⟨rfl, rfl, rfl⟩
